import Mathlib

/-!
# oneDNN bridge helpers of Paddle: a shallow embedding

The definitions below follow
`paddle/phi/kernels/funcs/onednn/onednn_helper.h` and
`paddle/phi/kernels/onednn/concat_kernel.cc`.

Conventions of the embedding:

* a `DDim` and a `std::vector` of integers are a `List Int`; a value of the
  C++ type `int` is an `Int` inside `[-2^31, 2^31)`, and a conversion to `int`
  is written out (`static_cast_int`);
* a `std::string` is the list of its characters;
* a function that can raise a Paddle error returns `Except Error _`;
* a `void` function that mutates a `DenseTensor*` returns the new tensor.
-/

namespace phi

/-! ## Types taken from headers outside the translated files -/

/-- The enumerators of `phi::DataLayout` (paddle/phi/common/layout.h). -/
inductive DataLayout where
  | UNDEFINED
  | NHWC
  | NCHW
  | NCDHW
  | NDHWC
  | ONEDNN
  | SPARSE_COO
  | SPARSE_CSR
  | PSTRING_UNION
  deriving DecidableEq, Repr

/-- The enumerators of `phi::DataType` that the oneDNN kernels are registered for,
and the remaining ones lumped by their code. -/
inductive DataType where
  | FLOAT32
  | BFLOAT16
  | INT8
  | UINT8
  | INT32
  | other (code : Nat)
  deriving DecidableEq, Repr

/-- The values of `dnnl::memory::data_type` that `oneDNNGetDataType` returns. -/
inductive data_type where
  | undef
  | f32
  | s32
  | s8
  | u8
  | bf16
  deriving DecidableEq, Repr

/-- The tags of `dnnl::memory::format_tag` that the translated code names, and the
remaining ones by their integer value (`other`). In `dnnl.hpp` the layout names `x`,
`nc`, `nchw`, ... are further enumerators with the value of one of the letter tags;
they are the definitions `format_tag.x`, ... below. -/
inductive format_tag where
  | undef
  | any
  | a
  | ab
  | abc
  | abcd
  | abcde
  | abcdef
  | abcdefg
  | abcdefgh
  | abcdefghi
  | acb
  | acdb
  | acdeb
  | other (value : Nat)
  deriving DecidableEq, Repr

/-- The error classes the translated code raises through `PADDLE_ENFORCE_EQ` and
`PADDLE_THROW`. The third value is no error of the code: it stands for a run that
reads `v[0]` of an empty vector, for which C++ defines no behaviour. -/
inductive Error where
  | InvalidArgument
  | Unimplemented
  | undefined_behaviour
  deriving DecidableEq, Repr

/-- What `dnnl::memory::desc` is built from: dimensions, data type and format tag. -/
structure memory_desc where
  dims : List Int
  dt : data_type
  format : format_tag
  deriving DecidableEq, Repr

/-- The part of a `phi::DenseTensor` the translated code reads or writes: the
dimensions (`dims()`, 64-bit each), the layout, the data type and the oneDNN memory
descriptor. -/
structure DenseTensor where
  dims : List Int
  layout : DataLayout
  dtype : DataType
  mem_desc : memory_desc
  deriving DecidableEq, Repr

/-- `DenseTensor::Resize`: replaces the dimensions and nothing else. -/
def DenseTensor.Resize (t : DenseTensor) (dims : List Int) : DenseTensor :=
  { t with dims := dims }

/-- `DenseTensor::numel`: the product of the dimensions. -/
def DenseTensor.numel (t : DenseTensor) : Int :=
  t.dims.prod

/-! ## Machine integers and library functions -/

/-- Conversion of a 64-bit value to the C++ type `int` (32 bits, two's complement):
the value is reduced modulo `2^32` into `[-2^31, 2^31)`. -/
def static_cast_int (x : Int) : Int :=
  (x + 2147483648) % 4294967296 - 2147483648

/-- `phi::vectorize<int>` (paddle/phi/core/ddim.h): copies the 64-bit dimensions of
a `DDim` into a `std::vector<int>`, converting each one to `int`. -/
def vectorize_int (dims : List Int) : List Int :=
  dims.map static_cast_int

/-- `phi::make_ddim` on a `std::vector<int>`: every `int` widens to 64 bits
unchanged. -/
def make_ddim (dims : List Int) : List Int :=
  dims

/-- `std::rotate(v.begin() + first, v.begin() + middle, v.begin() + last)`: the
range `[first, last)` becomes `[middle, last)` followed by `[first, middle)`, the
rest of the vector stays. -/
def std_rotate {α : Type} (v : List α) (first middle last : Nat) : List α :=
  v.take first
    ++ ((v.drop middle).take (last - middle) ++ (v.drop first).take (middle - first))
    ++ v.drop last

/-! ## `onednn_helper.h` -/

/-- `MatchShapeToLayout(tensor_in, from, to)`: the tensor after the call. -/
def MatchShapeToLayout (tensor_in : DenseTensor) (from_ to_ : DataLayout) :
    DenseTensor :=
  if tensor_in.dims.length < 3 then
    tensor_in
  else
    match from_ with
    | DataLayout.ONEDNN =>
      if to_ = DataLayout.NHWC ∨ to_ = DataLayout.NDHWC then
        let dims := vectorize_int tensor_in.dims
        let dims := std_rotate dims 1 2 dims.length
        tensor_in.Resize (make_ddim dims)
      else
        tensor_in
    | DataLayout.NHWC | DataLayout.NDHWC =>
      if to_ = DataLayout.ONEDNN then
        let dims := vectorize_int tensor_in.dims
        let dims := std_rotate dims 1 (dims.length - 1) dims.length
        tensor_in.Resize (make_ddim dims)
      else
        tensor_in
    | _ => tensor_in

/-- The layout names of `dnnl::memory::format_tag`: each is an enumerator with the
value of a letter tag (`x = a`, `nc = ab`, `ncw = abc`, `nwc = acb`, `nchw = abcd`,
`nhwc = acdb`, `ncdhw = abcde`, `ndhwc = acdeb`, `oihw = abcd`, `oidhw = abcde`,
`goihw = abcde`, `goidhw = abcdef`). -/
def format_tag.x : format_tag := format_tag.a

/-- `nc = ab`. -/
def format_tag.nc : format_tag := format_tag.ab

/-- `ncw = abc`. -/
def format_tag.ncw : format_tag := format_tag.abc

/-- `nwc = acb`. -/
def format_tag.nwc : format_tag := format_tag.acb

/-- `nchw = abcd`. -/
def format_tag.nchw : format_tag := format_tag.abcd

/-- `nhwc = acdb`. -/
def format_tag.nhwc : format_tag := format_tag.acdb

/-- `ncdhw = abcde`. -/
def format_tag.ncdhw : format_tag := format_tag.abcde

/-- `ndhwc = acdeb`. -/
def format_tag.ndhwc : format_tag := format_tag.acdeb

/-- `oihw = abcd`. -/
def format_tag.oihw : format_tag := format_tag.abcd

/-- `oidhw = abcde`. -/
def format_tag.oidhw : format_tag := format_tag.abcde

/-- `goihw = abcde`. -/
def format_tag.goihw : format_tag := format_tag.abcde

/-- `goidhw = abcdef`. -/
def format_tag.goidhw : format_tag := format_tag.abcdef

/-- `OneDNNFormatForSize(dims_size, data_format)`. -/
def OneDNNFormatForSize (dims_size : Nat) (data_format : format_tag) : format_tag :=
  if dims_size = 1 then
    format_tag.x
  else if dims_size = 2 then
    format_tag.nc
  else if dims_size = 3 then
    if data_format = format_tag.nchw then
      format_tag.ncw
    else if data_format = format_tag.nhwc then
      format_tag.nwc
    else
      data_format
  else if dims_size = 4 then
    if data_format = format_tag.goihw then
      format_tag.oihw
    else
      data_format
  else if dims_size = 5 then
    if data_format = format_tag.goidhw then
      format_tag.oidhw
    else if data_format = format_tag.nchw then
      format_tag.ncdhw
    else if data_format = format_tag.nhwc then
      format_tag.ndhwc
    else
      data_format
  else if dims_size = 6 then
    if data_format = format_tag.nchw then
      format_tag.abcdef
    else
      data_format
  else
    data_format

/-- `GetPlainOneDNNFormat(tensor_rank)`: the `switch` over the cases 1 to 9 with the
`PADDLE_THROW(Unimplemented)` default. -/
def GetPlainOneDNNFormat (tensor_rank : Int) : Except Error format_tag :=
  if tensor_rank = 1 then
    Except.ok format_tag.a
  else if tensor_rank = 2 then
    Except.ok format_tag.ab
  else if tensor_rank = 3 then
    Except.ok format_tag.abc
  else if tensor_rank = 4 then
    Except.ok format_tag.abcd
  else if tensor_rank = 5 then
    Except.ok format_tag.abcde
  else if tensor_rank = 6 then
    Except.ok format_tag.abcdef
  else if tensor_rank = 7 then
    Except.ok format_tag.abcdefg
  else if tensor_rank = 8 then
    Except.ok format_tag.abcdefgh
  else if tensor_rank = 9 then
    Except.ok format_tag.abcdefghi
  else
    Except.error Error.Unimplemented

/-- The five specialisations of `oneDNNGetDataType<T>()` and the generic template
(`undef`), read as a function of the element type. -/
def oneDNNGetDataType : DataType → data_type
  | DataType.FLOAT32 => data_type.f32
  | DataType.INT32 => data_type.s32
  | DataType.INT8 => data_type.s8
  | DataType.UINT8 => data_type.u8
  | DataType.BFLOAT16 => data_type.bf16
  | DataType.other _ => data_type.undef

/-- `ToOneDNNPadding(paddings)`. Every entry is read into a local of type `int` and
the locals are written into the 64-bit result. `none` stands for a read of
`paddings[i]` with `i` past the end of the vector (no defined behaviour in C++; the
function has no length check of its own). -/
def ToOneDNNPadding (paddings : List Int) : Option (List (List Int)) :=
  if paddings.length = 6 then do
    let padding_front := static_cast_int (← paddings[0]?)
    let padding_back := static_cast_int (← paddings[1]?)
    let padding_top := static_cast_int (← paddings[2]?)
    let padding_bottom := static_cast_int (← paddings[3]?)
    let padding_left := static_cast_int (← paddings[4]?)
    let padding_right := static_cast_int (← paddings[5]?)
    pure [[padding_front, padding_top, padding_left],
          [padding_back, padding_bottom, padding_right]]
  else do
    let padding_top := static_cast_int (← paddings[0]?)
    let padding_bottom := static_cast_int (← paddings[1]?)
    let padding_left := static_cast_int (← paddings[2]?)
    let padding_right := static_cast_int (← paddings[3]?)
    pure [[padding_top, padding_left], [padding_bottom, padding_right]]

/-- `std::to_string` on an integer: the decimal digits, after a minus sign for a
negative value. -/
def to_string (n : Int) : List Char :=
  if n < 0 then '-' :: Nat.toDigits 10 n.natAbs else Nat.toDigits 10 n.natAbs

/-- One argument of `CreateKey`, by the overload of `AppendKey` that takes it: an
argument of an integral type (the generic template: `int`, `int64_t`, `size_t`,
`bool`, ..., given by its value), one of the four oneDNN enumerations (given by its
integer value, which the specialisations obtain with `static_cast<int>`), a string
(`std::string` or `const char*`), or a vector of integers. The generic template and
the vector overload also take `float`, `double` and `long double`: such an argument
is given by the string `std::to_string` returns for it (`floating`), a vector of them
by the strings of its elements (`floating_dims`). That string is the `%f` form of the
C library, six digits after the point, and is not computed here; different values
can have the same string (`1e-7f` and `2e-7f` both give `0.000000`). -/
inductive KeyArg where
  | num (n : Int)
  | format (value : Int)
  | data_type (value : Int)
  | algorithm (value : Int)
  | normalization_flags (value : Int)
  | str (s : List Char)
  | dims (v : List Int)
  | floating (text : List Char)
  | floating_dims (texts : List (List Char))
  deriving DecidableEq, Repr

/-- `AppendKey(&key, arg)`: the key after the call, for each overload. The vector
overload appends `std::to_string(dims[i])` for `i = 0, 1, ...` through the string
overload. -/
def AppendKey (key : List Char) : KeyArg → List Char
  | KeyArg.num n => key ++ to_string n
  | KeyArg.format value => key ++ to_string value
  | KeyArg.data_type value => key ++ to_string value
  | KeyArg.algorithm value => key ++ to_string value
  | KeyArg.normalization_flags value => key ++ to_string value
  | KeyArg.str s => key ++ s
  | KeyArg.dims v => v.foldl (fun k d => k ++ to_string d) key
  | KeyArg.floating text => key ++ text
  | KeyArg.floating_dims texts => texts.foldl (fun k text => k ++ text) key

/-- `CreateKey(dev_ctx, args...)`: starts from the empty string, appends every
argument in call order, then `OneDNNContext::tls().get_key_suffix()`, here the
parameter `key_suffix`. -/
def CreateKey (key_suffix : List Char) (args : List KeyArg) : List Char :=
  args.foldl AppendKey [] ++ key_suffix

/-- The number a string of decimal digits stands for, read from the left in base
ten. -/
def decimal_value (digits : List Char) : Nat :=
  digits.foldl (fun acc c => 10 * acc + (c.toNat - 48)) 0

/-- The representation the spec (4.2) gives one argument of the key builder: the
decimal string of a number or of an enumeration's integer value, a string as it is,
a sequence as the decimal strings of its elements in order with nothing between
them. For a floating-point number the decimal string is the one the argument is
given by. -/
def spec_representation : KeyArg → List Char
  | KeyArg.num n => to_string n
  | KeyArg.format value => to_string value
  | KeyArg.data_type value => to_string value
  | KeyArg.algorithm value => to_string value
  | KeyArg.normalization_flags value => to_string value
  | KeyArg.str s => s
  | KeyArg.dims v => (v.map to_string).flatten
  | KeyArg.floating text => text
  | KeyArg.floating_dims texts => texts.flatten

/-- The key of the spec (4.2): the representations of the arguments in call order,
one after the other, then the context suffix. -/
def spec_BuildKey (context_suffix : List Char) (args : List KeyArg) : List Char :=
  (args.map spec_representation).flatten ++ context_suffix

/-! ## `concat_kernel.cc` -/

/-- What the constructor of `ConcatOneDNNHandler` hands to
`AcquireForwardPrimitiveDescriptor`, that is to `dnnl::concat::primitive_desc`. -/
structure ConcatPrimitiveArgs where
  dst_md : memory_desc
  concat_axis : Int
  srcs_md : List memory_desc
  deriving DecidableEq, Repr

/-- The constructor of `ConcatOneDNNHandler`, up to the call of the backend.
`ToOneDNNDataType` (declared outside the translated files) is a parameter. The rank
of a `DDim` is at most 9, so `dims().size()` and `dst_dims.size()` convert to `int`
unchanged. -/
def ConcatOneDNNHandler (ToOneDNNDataType : DataType → data_type) (concat_axis : Int)
    (inputs : List DenseTensor) (output : DenseTensor) :
    Except Error ConcatPrimitiveArgs :=
  match inputs with
  | [] => Except.error Error.undefined_behaviour
  | input0 :: _ =>
    let rank : Int := input0.dims.length
    if ¬ (concat_axis ≥ -rank ∧ concat_axis < rank) then
      Except.error Error.InvalidArgument
    else
      let concat_axis := if concat_axis < 0 then concat_axis + rank else concat_axis
      let dt := ToOneDNNDataType input0.dtype
      let srcs_md := inputs.map (fun t => t.mem_desc)
      let dst_dims := output.dims
      let src0_tz := input0.mem_desc.dims
      if 1 ∈ src0_tz then
        match GetPlainOneDNNFormat dst_dims.length with
        | Except.error e => Except.error e
        | Except.ok tag =>
          Except.ok { dst_md := ⟨dst_dims, dt, tag⟩, concat_axis := concat_axis,
                      srcs_md := srcs_md }
      else
        Except.ok { dst_md := ⟨dst_dims, dt, format_tag.any⟩, concat_axis := concat_axis,
                    srcs_md := srcs_md }

/-- `EnforceLayouts(inputs)`: the first input whose layout is not `ONEDNN` raises
`InvalidArgument`. -/
def EnforceLayouts : List DenseTensor → Except Error Unit
  | [] => Except.ok ()
  | input :: rest =>
    if input.layout = DataLayout.ONEDNN then EnforceLayouts rest
    else Except.error Error.InvalidArgument

/-- `std::copy_if` into a destination that is large enough: the elements written so
far are `written`; every source element that satisfies `pred` is written after
them. The result is the written part of the destination. -/
def std_copy_if {α : Type} (pred : α → Bool) : List α → List α → List α
  | [], written => written
  | t :: rest, written =>
    if pred t then std_copy_if pred rest (written ++ [t])
    else std_copy_if pred rest written

/-- `ReduceMultiInput(inputs)`: `copy_if` with `numel() > 0` into a vector of
`inputs.size()` null pointers, which is then cut after the last element written. -/
def ReduceMultiInput (inputs : List DenseTensor) : List DenseTensor :=
  std_copy_if (fun t => decide (t.numel > 0)) inputs []

/-- A `phi::Scalar` that holds an integer. -/
structure Scalar where
  value : Int
  deriving DecidableEq, Repr

/-- `Scalar::to<size_t>()`: the stored integer converted to an unsigned 64-bit
value, that is reduced modulo `2^64`. -/
def Scalar.to_size_t (s : Scalar) : Nat :=
  (s.value % 18446744073709551616).toNat

/-- `Scalar::to<int>()`: the stored integer converted to `int`. -/
def Scalar.to_int (s : Scalar) : Int :=
  static_cast_int s.value

/-- One round of the outer loop of `ComputeAndCheckShape`, for the input shape
`dims_i`: the ranks must agree, every axis other than `axis` must have the size it
has in the first input `dims_0`, and the size on `axis` is added to the output. -/
def ComputeAndCheckShape_add (dims_0 : List Int) (axis : Nat) (out_dims dims_i : List Int) :
    Except Error (List Int) :=
  if dims_i.length ≠ dims_0.length then
    Except.error Error.InvalidArgument
  else if (List.range dims_0.length).all
      (fun j => j == axis || dims_0.getD j 0 == dims_i.getD j 0) then
    Except.ok (out_dims.set axis (out_dims.getD axis 0 + dims_i.getD axis 0))
  else
    Except.error Error.InvalidArgument

/-- Modelled from the spec: `funcs::ComputeAndCheckShape` is declared in
paddle/phi/kernels/funcs/concat_funcs.h, which is not among the translated files.
The spec (4.4, step 3) has it "compute the output shape by summing axis sizes along
the concat axis and asserting equality on every other axis across inputs", and lists
mismatched input ranks and a shape mismatch on a non-concat axis as `InvalidArgument`
(7). The output starts as the first shape; the kernel calls it with
`is_runtime = true`, the only case modelled. No first shape to start from is a read
of `inputs_dims[0]` of an empty vector. -/
def ComputeAndCheckShape (inputs_dims : List (List Int)) (axis : Nat) :
    Except Error (List Int) :=
  match inputs_dims with
  | [] => Except.error Error.undefined_behaviour
  | dims_0 :: rest => rest.foldlM (ComputeAndCheckShape_add dims_0 axis) dims_0

/-- How a call of `ConcatKernel` ends: the output tensor as the call leaves it, and
either the error raised or the arguments the handler gave to the backend. -/
structure ConcatKernelOutcome where
  out : DenseTensor
  result : Except Error ConcatPrimitiveArgs
  deriving Repr

/-- `ConcatKernel(dev_ctx, x, axis, out)` up to the construction of the handler
(lines 128 to 144); binding the memories and running the primitive on the stream are
the backend's work and not part of the embedding. -/
def ConcatKernel (ToOneDNNDataType : DataType → data_type) (x : List DenseTensor)
    (axis : Scalar) (out : DenseTensor) : ConcatKernelOutcome :=
  let multi_input := ReduceMultiInput x
  match EnforceLayouts multi_input with
  | Except.error e => { out := out, result := Except.error e }
  | Except.ok _ =>
    let x_dims := x.map (fun t => t.dims)
    match ComputeAndCheckShape x_dims axis.to_size_t with
    | Except.error e => { out := out, result := Except.error e }
    | Except.ok out_dims =>
      let out := out.Resize out_dims
      { out := out,
        result := ConcatOneDNNHandler ToOneDNNDataType axis.to_int multi_input out }

/-! ## Lemmas -/

theorem static_cast_int_of_fits (x : Int) (h : -2147483648 ≤ x ∧ x < 2147483648) :
    static_cast_int x = x := by
  unfold static_cast_int
  omega

theorem vectorize_int_of_fits (dims : List Int)
    (h : ∀ d ∈ dims, -2147483648 ≤ d ∧ d < 2147483648) : vectorize_int dims = dims := by
  unfold vectorize_int
  induction dims with
  | nil => rfl
  | cons d ds ih =>
    simp only [List.map_cons]
    rw [static_cast_int_of_fits d (h d (List.mem_cons_self d ds)),
      ih (fun e he => h e (List.mem_cons_of_mem d he))]

theorem std_rotate_second_to_back {α : Type} (d0 d1 : α) (rest : List α) :
    std_rotate (d0 :: d1 :: rest) 1 2 (d0 :: d1 :: rest).length
      = d0 :: (rest ++ [d1]) := by
  simp [std_rotate]

theorem std_rotate_back_to_second {α : Type} (d0 l : α) (mid : List α) :
    std_rotate (d0 :: (mid ++ [l])) 1 ((d0 :: (mid ++ [l])).length - 1)
        (d0 :: (mid ++ [l])).length
      = d0 :: l :: mid := by
  simp [std_rotate]

theorem MatchShapeToLayout_to_channel_last (t : DenseTensor) (d0 d1 : Int)
    (rest : List Int) (hd : t.dims = d0 :: d1 :: rest) (hrest : rest ≠ [])
    (to_ : DataLayout) (hto : to_ = DataLayout.NHWC ∨ to_ = DataLayout.NDHWC) :
    MatchShapeToLayout t DataLayout.ONEDNN to_
      = t.Resize ((d0 :: (rest ++ [d1])).map static_cast_int) := by
  have hlen : ¬ t.dims.length < 3 := by
    cases rest with
    | nil => exact absurd rfl hrest
    | cons r rs => simp [hd]
  unfold MatchShapeToLayout
  rw [if_neg hlen]
  simp only [hto, if_true, vectorize_int, make_ddim, hd, List.map_cons]
  rw [std_rotate_second_to_back]
  simp

theorem MatchShapeToLayout_to_onednn (t : DenseTensor) (d0 l : Int)
    (mid : List Int) (hd : t.dims = d0 :: (mid ++ [l])) (hmid : mid ≠ [])
    (from_ : DataLayout) (hfrom : from_ = DataLayout.NHWC ∨ from_ = DataLayout.NDHWC) :
    MatchShapeToLayout t from_ DataLayout.ONEDNN
      = t.Resize ((d0 :: l :: mid).map static_cast_int) := by
  have hlen : ¬ t.dims.length < 3 := by
    cases mid with
    | nil => exact absurd rfl hmid
    | cons r rs => simp [hd]
  unfold MatchShapeToLayout
  rw [if_neg hlen]
  have key : std_rotate (vectorize_int t.dims) 1 ((vectorize_int t.dims).length - 1)
      (vectorize_int t.dims).length = (d0 :: l :: mid).map static_cast_int := by
    have : vectorize_int t.dims
        = static_cast_int d0 :: (mid.map static_cast_int ++ [static_cast_int l]) := by
      simp [vectorize_int, hd]
    rw [this, std_rotate_back_to_second]
    simp
  rcases hfrom with h | h <;> subst h <;> simp only [if_true, make_ddim, key]

theorem list_three_split (l : List Int) (h : 3 ≤ l.length) :
    ∃ d0 d1 r rs, l = d0 :: d1 :: r :: rs := by
  match l, h with
  | d0 :: d1 :: r :: rs, _ => exact ⟨d0, d1, r, rs, rfl⟩

theorem list_three_split_back (l : List Int) (h : 3 ≤ l.length) :
    ∃ d0 m ms b, l = d0 :: ((m :: ms) ++ [b]) := by
  obtain ⟨d0, d1, r, rs, rfl⟩ := list_three_split l h
  rcases List.eq_nil_or_concat (r :: rs) with hnil | ⟨init, b, hib⟩
  · exact absurd hnil (by simp)
  · refine ⟨d0, d1, init, b, ?_⟩
    rw [hib]
    simp

/-- C1, as amended: for a tensor of rank at least 3 whose dimensions all fit the C++
type `int`, `MatchShapeToLayout` from ONEDNN to NHWC or NDHWC followed by
`MatchShapeToLayout` from NHWC or NDHWC to ONEDNN gives back the tensor, and so do the
two calls in the opposite order. -/
theorem MatchShapeToLayout_round_trip (t : DenseTensor) (last last' : DataLayout)
    (hrank : 3 ≤ t.dims.length)
    (hfit : ∀ d ∈ t.dims, -2147483648 ≤ d ∧ d < 2147483648)
    (hlast : last = DataLayout.NHWC ∨ last = DataLayout.NDHWC)
    (hlast' : last' = DataLayout.NHWC ∨ last' = DataLayout.NDHWC) :
    MatchShapeToLayout (MatchShapeToLayout t DataLayout.ONEDNN last) last' DataLayout.ONEDNN = t
      ∧ MatchShapeToLayout (MatchShapeToLayout t last' DataLayout.ONEDNN) DataLayout.ONEDNN last
          = t := by
  constructor
  · obtain ⟨d0, d1, r, rs, hd⟩ := list_three_split t.dims hrank
    have hfit' : ∀ d ∈ d0 :: ((r :: rs) ++ [d1]), -2147483648 ≤ d ∧ d < 2147483648 := by
      intro d hmem
      apply hfit d
      rw [hd]
      simp only [List.mem_cons, List.mem_append, List.mem_singleton, List.cons_append] at hmem ⊢
      tauto
    have hfit2 : ∀ d ∈ d0 :: d1 :: (r :: rs), -2147483648 ≤ d ∧ d < 2147483648 := by
      rw [← hd]; exact hfit
    rw [MatchShapeToLayout_to_channel_last t d0 d1 (r :: rs) hd (by simp) last hlast]
    have e1 : (d0 :: ((r :: rs) ++ [d1])).map static_cast_int = d0 :: ((r :: rs) ++ [d1]) :=
      vectorize_int_of_fits _ hfit'
    rw [e1]
    rw [MatchShapeToLayout_to_onednn (t.Resize (d0 :: ((r :: rs) ++ [d1]))) d0 d1 (r :: rs) rfl
      (by simp) last' hlast']
    have e2 : (d0 :: d1 :: (r :: rs)).map static_cast_int = d0 :: d1 :: (r :: rs) :=
      vectorize_int_of_fits _ hfit2
    rw [e2]
    cases t
    simp only [DenseTensor.Resize] at hd ⊢
    rw [hd]
  · obtain ⟨d0, m, ms, b, hd⟩ := list_three_split_back t.dims hrank
    have hfit' : ∀ d ∈ d0 :: b :: (m :: ms), -2147483648 ≤ d ∧ d < 2147483648 := by
      intro d hmem
      apply hfit d
      rw [hd]
      simp only [List.mem_cons, List.mem_append, List.mem_singleton, List.cons_append] at hmem ⊢
      tauto
    have hfit2 : ∀ d ∈ d0 :: ((m :: ms) ++ [b]), -2147483648 ≤ d ∧ d < 2147483648 := by
      rw [← hd]; exact hfit
    rw [MatchShapeToLayout_to_onednn t d0 b (m :: ms) hd (by simp) last' hlast']
    have e1 : (d0 :: b :: (m :: ms)).map static_cast_int = d0 :: b :: (m :: ms) :=
      vectorize_int_of_fits _ hfit'
    rw [e1]
    rw [MatchShapeToLayout_to_channel_last (t.Resize (d0 :: b :: (m :: ms))) d0 b (m :: ms) rfl
      (by simp) last hlast]
    have e2 : (d0 :: ((m :: ms) ++ [b])).map static_cast_int = d0 :: ((m :: ms) ++ [b]) :=
      vectorize_int_of_fits _ hfit2
    rw [e2]
    cases t
    simp only [DenseTensor.Resize] at hd ⊢
    rw [hd]

/-- The round trip of C1 at the rank 4 shape `[2, 3, 4, 5]`, through NHWC one way and
NDHWC the other. -/
theorem MatchShapeToLayout_round_trip_witness :
    3 ≤ [2, 3, 4, (5 : Int)].length
      ∧ (∀ d ∈ [2, 3, 4, (5 : Int)], -2147483648 ≤ d ∧ d < 2147483648)
      ∧ MatchShapeToLayout
          (MatchShapeToLayout
            ⟨[2, 3, 4, 5], DataLayout.ONEDNN, DataType.FLOAT32,
              ⟨[2, 3, 4, 5], data_type.f32, format_tag.abcd⟩⟩
            DataLayout.ONEDNN DataLayout.NHWC)
          DataLayout.NDHWC DataLayout.ONEDNN
        = ⟨[2, 3, 4, 5], DataLayout.ONEDNN, DataType.FLOAT32,
            ⟨[2, 3, 4, 5], data_type.f32, format_tag.abcd⟩⟩
      ∧ MatchShapeToLayout
          (MatchShapeToLayout
            ⟨[2, 3, 4, 5], DataLayout.ONEDNN, DataType.FLOAT32,
              ⟨[2, 3, 4, 5], data_type.f32, format_tag.abcd⟩⟩
            DataLayout.NDHWC DataLayout.ONEDNN)
          DataLayout.ONEDNN DataLayout.NHWC
        = ⟨[2, 3, 4, 5], DataLayout.ONEDNN, DataType.FLOAT32,
            ⟨[2, 3, 4, 5], data_type.f32, format_tag.abcd⟩⟩ :=
  ⟨by decide, by decide,
    MatchShapeToLayout_round_trip
      ⟨[2, 3, 4, 5], DataLayout.ONEDNN, DataType.FLOAT32,
        ⟨[2, 3, 4, 5], data_type.f32, format_tag.abcd⟩⟩
      DataLayout.NHWC DataLayout.NDHWC (by decide) (by decide) (Or.inl rfl) (Or.inr rfl)⟩

/-- C1 as stated fails: on the rank 3 shape `[1, 2147483648, 1]` the rotation to NHWC
gives `[1, 1, -2147483648]` and the rotation back gives `[1, -2147483648, 1]`, not
the shape it started from. -/
theorem MatchShapeToLayout_round_trip_counterexample :
    3 ≤ [1, 2147483648, (1 : Int)].length
      ∧ (MatchShapeToLayout
          ⟨[1, 2147483648, 1], DataLayout.ONEDNN, DataType.FLOAT32,
            ⟨[1, 2147483648, 1], data_type.f32, format_tag.abc⟩⟩
          DataLayout.ONEDNN DataLayout.NHWC).dims = [1, 1, -2147483648]
      ∧ (MatchShapeToLayout
          (MatchShapeToLayout
            ⟨[1, 2147483648, 1], DataLayout.ONEDNN, DataType.FLOAT32,
              ⟨[1, 2147483648, 1], data_type.f32, format_tag.abc⟩⟩
            DataLayout.ONEDNN DataLayout.NHWC)
          DataLayout.NHWC DataLayout.ONEDNN).dims = [1, -2147483648, 1]
      ∧ MatchShapeToLayout
          (MatchShapeToLayout
            ⟨[1, 2147483648, 1], DataLayout.ONEDNN, DataType.FLOAT32,
              ⟨[1, 2147483648, 1], data_type.f32, format_tag.abc⟩⟩
            DataLayout.ONEDNN DataLayout.NHWC)
          DataLayout.NHWC DataLayout.ONEDNN
        ≠ ⟨[1, 2147483648, 1], DataLayout.ONEDNN, DataType.FLOAT32,
            ⟨[1, 2147483648, 1], data_type.f32, format_tag.abc⟩⟩ := by
  refine ⟨by decide, by decide, by decide, by decide⟩

/-! ### Decimal strings -/

theorem digitChar_toNat (k : Nat) (h : k < 10) : (Nat.digitChar k).toNat - 48 = k := by
  interval_cases k <;> rfl

theorem toDigitsCore_append (f : Nat) : ∀ (n : Nat) (ds : List Char),
    Nat.toDigitsCore 10 f n ds = Nat.toDigitsCore 10 f n [] ++ ds := by
  induction f with
  | zero => intro n ds; simp [Nat.toDigitsCore]
  | succ f ih =>
    intro n ds
    simp only [Nat.toDigitsCore]
    split
    · simp
    · rw [ih (n / 10) (Nat.digitChar (n % 10) :: ds), ih (n / 10) [Nat.digitChar (n % 10)]]
      simp

theorem toDigitsCore_value (f : Nat) : ∀ (n : Nat), n < f →
    (Nat.toDigitsCore 10 f n []).foldl (fun acc c => 10 * acc + (c.toNat - 48)) 0 = n := by
  induction f with
  | zero => intro n h; omega
  | succ f ih =>
    intro n h
    simp only [Nat.toDigitsCore]
    split
    · rename_i h0
      simp only [List.foldl_cons, List.foldl_nil]
      rw [digitChar_toNat _ (Nat.mod_lt _ (by decide))]
      omega
    · rename_i h0
      rw [toDigitsCore_append f (n / 10) [Nat.digitChar (n % 10)]]
      simp only [List.foldl_append, List.foldl_cons, List.foldl_nil]
      rw [ih (n / 10) (by omega), digitChar_toNat _ (Nat.mod_lt _ (by decide))]
      omega

theorem foldl_to_string_append (v : List Int) : ∀ (key : List Char),
    v.foldl (fun k d => k ++ to_string d) key
      = key ++ v.foldl (fun k d => k ++ to_string d) [] := by
  induction v with
  | nil => intro key; simp
  | cons d ds ih =>
    intro key
    simp only [List.foldl_cons]
    rw [ih (key ++ to_string d), ih ([] ++ to_string d)]
    simp

theorem foldl_text_append (texts : List (List Char)) : ∀ (key : List Char),
    texts.foldl (fun k text => k ++ text) key = key ++ texts.flatten := by
  induction texts with
  | nil => intro key; simp
  | cons text rest ih =>
    intro key
    simp only [List.foldl_cons, List.flatten_cons]
    rw [ih (key ++ text)]
    simp

theorem AppendKey_append (key : List Char) (arg : KeyArg) :
    AppendKey key arg = key ++ AppendKey [] arg := by
  cases arg with
  | dims v => simp only [AppendKey]; exact foldl_to_string_append v key
  | floating_dims texts =>
    simp only [AppendKey]
    rw [foldl_text_append texts key, foldl_text_append texts []]
    simp
  | _ => simp [AppendKey]

theorem foldl_AppendKey_append (args : List KeyArg) : ∀ (key : List Char),
    args.foldl AppendKey key = key ++ args.foldl AppendKey [] := by
  induction args with
  | nil => intro key; simp
  | cons a as ih =>
    intro key
    simp only [List.foldl_cons]
    rw [ih (AppendKey key a), ih (AppendKey [] a), AppendKey_append key a]
    simp

/-- C6: `GetPlainOneDNNFormat` returns the tags `a`, `ab`, ..., `abcdefghi` for the
ranks 1 to 9, it returns a tag exactly for these ranks, and for every other integer
it raises `Unimplemented`. -/
theorem GetPlainOneDNNFormat_table :
    (GetPlainOneDNNFormat 1 = Except.ok format_tag.a
      ∧ GetPlainOneDNNFormat 2 = Except.ok format_tag.ab
      ∧ GetPlainOneDNNFormat 3 = Except.ok format_tag.abc
      ∧ GetPlainOneDNNFormat 4 = Except.ok format_tag.abcd
      ∧ GetPlainOneDNNFormat 5 = Except.ok format_tag.abcde
      ∧ GetPlainOneDNNFormat 6 = Except.ok format_tag.abcdef
      ∧ GetPlainOneDNNFormat 7 = Except.ok format_tag.abcdefg
      ∧ GetPlainOneDNNFormat 8 = Except.ok format_tag.abcdefgh
      ∧ GetPlainOneDNNFormat 9 = Except.ok format_tag.abcdefghi)
    ∧ (∀ rank : Int, (∃ tag, GetPlainOneDNNFormat rank = Except.ok tag) ↔ (1 ≤ rank ∧ rank ≤ 9))
    ∧ (∀ rank : Int, ¬ (1 ≤ rank ∧ rank ≤ 9) →
        GetPlainOneDNNFormat rank = Except.error Error.Unimplemented) := by
  have hout : ∀ rank : Int, ¬ (1 ≤ rank ∧ rank ≤ 9) →
      GetPlainOneDNNFormat rank = Except.error Error.Unimplemented := by
    intro rank h
    unfold GetPlainOneDNNFormat
    repeat' split
    all_goals first | rfl | omega
  refine ⟨⟨rfl, rfl, rfl, rfl, rfl, rfl, rfl, rfl, rfl⟩, ?_, hout⟩
  intro rank
  constructor
  · rintro ⟨tag, htag⟩
    by_contra hc
    rw [hout rank hc] at htag
    cases htag
  · rintro ⟨h1, h9⟩
    have hcases : rank = 1 ∨ rank = 2 ∨ rank = 3 ∨ rank = 4 ∨ rank = 5 ∨ rank = 6
        ∨ rank = 7 ∨ rank = 8 ∨ rank = 9 := by omega
    rcases hcases with h | h | h | h | h | h | h | h | h <;> subst h <;> exact ⟨_, rfl⟩

/-- C4: for entries that fit the C++ type `int`, `ToOneDNNPadding` maps
`[front, back, top, bottom, left, right]` to `[[front, top, left], [back, bottom, right]]`
and `[top, bottom, left, right]` to `[[top, left], [bottom, right]]`; `[2,3,4,5,6,7]` gives
`[[2,4,6],[3,5,7]]` and `[1,1,2,2]` gives `[[1,2],[1,2]]`. -/
theorem ToOneDNNPadding_positional (front back top bottom left right : Int)
    (hfit : ∀ p ∈ [front, back, top, bottom, left, right],
      -2147483648 ≤ p ∧ p < 2147483648) :
    ToOneDNNPadding [front, back, top, bottom, left, right]
        = some [[front, top, left], [back, bottom, right]]
      ∧ ToOneDNNPadding [top, bottom, left, right] = some [[top, left], [bottom, right]]
      ∧ ToOneDNNPadding [2, 3, 4, 5, 6, 7] = some [[2, 4, 6], [3, 5, 7]]
      ∧ ToOneDNNPadding [1, 1, 2, 2] = some [[1, 2], [1, 2]] := by
  have h0 := static_cast_int_of_fits front (hfit front (by simp))
  have h1 := static_cast_int_of_fits back (hfit back (by simp))
  have h2 := static_cast_int_of_fits top (hfit top (by simp))
  have h3 := static_cast_int_of_fits bottom (hfit bottom (by simp))
  have h4 := static_cast_int_of_fits left (hfit left (by simp))
  have h5 := static_cast_int_of_fits right (hfit right (by simp))
  refine ⟨?_, ?_, by decide, by decide⟩
  · simp [ToOneDNNPadding, h0, h1, h2, h3, h4, h5]
  · simp [ToOneDNNPadding, h2, h3, h4, h5]

/-- C4 at paddings with a negative and a large entry that still fit `int`. -/
theorem ToOneDNNPadding_positional_witness :
    (∀ p ∈ [(-1 : Int), 0, 2147483647, 5, 6, -2147483648],
        -2147483648 ≤ p ∧ p < 2147483648)
      ∧ ToOneDNNPadding [-1, 0, 2147483647, 5, 6, -2147483648]
          = some [[-1, 2147483647, 6], [0, 5, -2147483648]]
      ∧ ToOneDNNPadding [2147483647, 5, 6, -2147483648]
          = some [[2147483647, 6], [5, -2147483648]] :=
  ⟨by decide,
    (ToOneDNNPadding_positional (-1) 0 2147483647 5 6 (-2147483648) (by decide)).1,
    (ToOneDNNPadding_positional (-1) 0 2147483647 5 6 (-2147483648) (by decide)).2.1⟩

/-- C5, as amended: `ToOneDNNPadding` checks no length. A list whose length is not 6
and at least 4 (5 or 8, say) is treated as a 2-D padding: the result is built from
its first four entries, each converted to `int`. -/
theorem ToOneDNNPadding_other_lengths (paddings : List Int)
    (hne : paddings.length ≠ 6) (hge : 4 ≤ paddings.length) :
    ToOneDNNPadding paddings
      = some [[static_cast_int (paddings.getD 0 0), static_cast_int (paddings.getD 2 0)],
              [static_cast_int (paddings.getD 1 0), static_cast_int (paddings.getD 3 0)]] := by
  match paddings, hge with
  | p0 :: p1 :: p2 :: p3 :: rest, _ =>
    unfold ToOneDNNPadding
    rw [if_neg hne]
    simp

/-- C5 amended at the lengths 5 and 8. -/
theorem ToOneDNNPadding_other_lengths_witness :
    ToOneDNNPadding [1, 2, 3, 4, 5] = some [[1, 3], [2, 4]]
      ∧ ToOneDNNPadding [1, 2, 3, 4, 5, 6, 7, 8] = some [[1, 3], [2, 4]] :=
  ⟨ToOneDNNPadding_other_lengths [1, 2, 3, 4, 5] (by decide) (by decide),
    ToOneDNNPadding_other_lengths [1, 2, 3, 4, 5, 6, 7, 8] (by decide) (by decide)⟩

/-- C5 as stated fails: the list `[1, 2, 3, 4, 5]` has length 5, neither 4 nor 6, and
`ToOneDNNPadding` returns the nested padding `[[1, 3], [2, 4]]` for it. -/
theorem ToOneDNNPadding_length_five_returns :
    [1, 2, 3, 4, (5 : Int)].length ≠ 4 ∧ [1, 2, 3, 4, (5 : Int)].length ≠ 6
      ∧ ToOneDNNPadding [1, 2, 3, 4, 5] = some [[1, 3], [2, 4]] := by
  refine ⟨by decide, by decide, by decide⟩

/-! ### The concat handler -/

theorem GetPlainOneDNNFormat_ok_of_rank (rank : Int) (h : 1 ≤ rank ∧ rank ≤ 9) :
    ∃ tag, GetPlainOneDNNFormat rank = Except.ok tag := by
  have hcases : rank = 1 ∨ rank = 2 ∨ rank = 3 ∨ rank = 4 ∨ rank = 5 ∨ rank = 6
      ∨ rank = 7 ∨ rank = 8 ∨ rank = 9 := by omega
  rcases hcases with h | h | h | h | h | h | h | h | h <;> subst h <;> exact ⟨_, rfl⟩

theorem GetPlainOneDNNFormat_error (rank : Int) (e : Error)
    (h : GetPlainOneDNNFormat rank = Except.error e) : e = Error.Unimplemented := by
  unfold GetPlainOneDNNFormat at h
  repeat' split at h
  all_goals (cases h; try rfl)

theorem ConcatOneDNNHandler_with_one (ToOneDNNDataType : DataType → data_type)
    (concat_axis : Int) (input0 : DenseTensor) (rest : List DenseTensor)
    (output : DenseTensor) (tag : format_tag)
    (haxis : -(input0.dims.length : Int) ≤ concat_axis ∧ concat_axis < input0.dims.length)
    (hone : 1 ∈ input0.mem_desc.dims)
    (htag : GetPlainOneDNNFormat output.dims.length = Except.ok tag) :
    ConcatOneDNNHandler ToOneDNNDataType concat_axis (input0 :: rest) output
      = Except.ok
          { dst_md := ⟨output.dims, ToOneDNNDataType input0.dtype, tag⟩,
            concat_axis :=
              if concat_axis < 0 then concat_axis + input0.dims.length else concat_axis,
            srcs_md := (input0 :: rest).map (fun t => t.mem_desc) } := by
  have hax : ¬ ¬ (concat_axis ≥ -(input0.dims.length : Int) ∧ concat_axis < input0.dims.length) :=
    not_not.mpr ⟨haxis.1, haxis.2⟩
  simp only [ConcatOneDNNHandler]
  rw [if_neg hax, if_pos hone, htag]

/-- C3, as amended: when the memory descriptor of the first input has size 1 on some
axis (the axis is in range and the output rank is between 1 and 9), the destination
descriptor of `ConcatOneDNNHandler` has the output's dimensions and the tag
`GetPlainOneDNNFormat` gives for the output rank. -/
theorem ConcatOneDNNHandler_dense_tag (ToOneDNNDataType : DataType → data_type)
    (concat_axis : Int) (input0 : DenseTensor) (rest : List DenseTensor)
    (output : DenseTensor)
    (haxis : -(input0.dims.length : Int) ≤ concat_axis ∧ concat_axis < input0.dims.length)
    (hone : 1 ∈ input0.mem_desc.dims)
    (hrank : 1 ≤ output.dims.length ∧ output.dims.length ≤ 9) :
    ∃ args, ConcatOneDNNHandler ToOneDNNDataType concat_axis (input0 :: rest) output
        = Except.ok args
      ∧ args.dst_md.dims = output.dims
      ∧ GetPlainOneDNNFormat output.dims.length = Except.ok args.dst_md.format := by
  obtain ⟨tag, htag⟩ := GetPlainOneDNNFormat_ok_of_rank output.dims.length (by omega)
  exact ⟨_, ConcatOneDNNHandler_with_one ToOneDNNDataType concat_axis input0 rest output tag
    haxis hone htag, rfl, htag⟩

/-- C3 amended on the inputs of the spec's example: the shapes `[1,3,10]` and
`[1,3,10]` concatenated on axis 0 into `[2,3,10]` get the dense 3-D tag `abc`. -/
theorem ConcatOneDNNHandler_dense_tag_witness :
    ∃ args, ConcatOneDNNHandler oneDNNGetDataType 0
        (⟨[1, 3, 10], DataLayout.ONEDNN, DataType.FLOAT32,
            ⟨[1, 3, 10], data_type.f32, format_tag.abc⟩⟩
          :: [⟨[1, 3, 10], DataLayout.ONEDNN, DataType.FLOAT32,
            ⟨[1, 3, 10], data_type.f32, format_tag.abc⟩⟩])
        ⟨[2, 3, 10], DataLayout.ONEDNN, DataType.FLOAT32,
          ⟨[], data_type.undef, format_tag.undef⟩⟩ = Except.ok args
      ∧ args.dst_md.dims = [2, 3, 10]
      ∧ GetPlainOneDNNFormat 3 = Except.ok args.dst_md.format :=
  ConcatOneDNNHandler_dense_tag oneDNNGetDataType 0
    ⟨[1, 3, 10], DataLayout.ONEDNN, DataType.FLOAT32,
      ⟨[1, 3, 10], data_type.f32, format_tag.abc⟩⟩
    [⟨[1, 3, 10], DataLayout.ONEDNN, DataType.FLOAT32,
      ⟨[1, 3, 10], data_type.f32, format_tag.abc⟩⟩]
    ⟨[2, 3, 10], DataLayout.ONEDNN, DataType.FLOAT32,
      ⟨[], data_type.undef, format_tag.undef⟩⟩
    (by decide) (by decide) (by decide)

/-- C3 as stated fails: with the inputs `[2,3,10]` and `[1,3,10]` on axis 0 the second
input has size 1 on axis 0, and the destination descriptor gets the tag `any`, not
the dense 3-D tag `abc`. -/
theorem ConcatOneDNNHandler_second_input_one :
    (1 : Int) ∈ [1, 3, (10 : Int)]
      ∧ GetPlainOneDNNFormat 3 = Except.ok format_tag.abc
      ∧ ConcatOneDNNHandler oneDNNGetDataType 0
          [⟨[2, 3, 10], DataLayout.ONEDNN, DataType.FLOAT32,
              ⟨[2, 3, 10], data_type.f32, format_tag.abc⟩⟩,
            ⟨[1, 3, 10], DataLayout.ONEDNN, DataType.FLOAT32,
              ⟨[1, 3, 10], data_type.f32, format_tag.abc⟩⟩]
          ⟨[3, 3, 10], DataLayout.ONEDNN, DataType.FLOAT32,
            ⟨[], data_type.undef, format_tag.undef⟩⟩
        = Except.ok
            { dst_md := ⟨[3, 3, 10], data_type.f32, format_tag.any⟩,
              concat_axis := 0,
              srcs_md := [⟨[2, 3, 10], data_type.f32, format_tag.abc⟩,
                ⟨[1, 3, 10], data_type.f32, format_tag.abc⟩] } := by
  refine ⟨by decide, rfl, rfl⟩

/-- C7: the constructor of `ConcatOneDNNHandler`, for a first input of rank `r`, raises
`InvalidArgument` if and only if the axis is outside `[-r, r)`. -/
theorem ConcatOneDNNHandler_InvalidArgument_iff (ToOneDNNDataType : DataType → data_type)
    (concat_axis : Int) (input0 : DenseTensor) (rest : List DenseTensor)
    (output : DenseTensor) :
    ConcatOneDNNHandler ToOneDNNDataType concat_axis (input0 :: rest) output
        = Except.error Error.InvalidArgument
      ↔ ¬ (-(input0.dims.length : Int) ≤ concat_axis ∧ concat_axis < input0.dims.length) := by
  constructor
  · intro h hax
    have hax' : ¬ ¬ (concat_axis ≥ -(input0.dims.length : Int)
        ∧ concat_axis < input0.dims.length) := not_not.mpr ⟨hax.1, hax.2⟩
    simp only [ConcatOneDNNHandler] at h
    rw [if_neg hax'] at h
    split at h
    · split at h
      · rename_i e he
        have := GetPlainOneDNNFormat_error _ e he
        subst this
        cases h
      · cases h
    · cases h
  · intro hax
    have hax' : ¬ (concat_axis ≥ -(input0.dims.length : Int)
        ∧ concat_axis < input0.dims.length) := fun h => hax ⟨h.1, h.2⟩
    simp only [ConcatOneDNNHandler]
    rw [if_pos hax']

/-- C8: for an axis inside `[-r, r)`, `r` the rank of the first input, the axis the
handler gives to the backend is `axis` when `axis >= 0` and `axis + r` otherwise, and
lies in `[0, r)`; the handler does reach the backend unless the dense tag is asked for
an output rank outside 1 to 9. -/
theorem ConcatOneDNNHandler_axis (ToOneDNNDataType : DataType → data_type)
    (concat_axis : Int) (input0 : DenseTensor) (rest : List DenseTensor)
    (output : DenseTensor)
    (haxis : -(input0.dims.length : Int) ≤ concat_axis ∧ concat_axis < input0.dims.length) :
    (∀ args, ConcatOneDNNHandler ToOneDNNDataType concat_axis (input0 :: rest) output
        = Except.ok args →
        args.concat_axis
            = (if concat_axis ≥ 0 then concat_axis else concat_axis + input0.dims.length)
          ∧ 0 ≤ args.concat_axis ∧ args.concat_axis < input0.dims.length)
      ∧ ((1 ∉ input0.mem_desc.dims ∨ (1 ≤ output.dims.length ∧ output.dims.length ≤ 9)) →
          ∃ args, ConcatOneDNNHandler ToOneDNNDataType concat_axis (input0 :: rest) output
            = Except.ok args) := by
  have hax : ¬ ¬ (concat_axis ≥ -(input0.dims.length : Int) ∧ concat_axis < input0.dims.length) :=
    not_not.mpr ⟨haxis.1, haxis.2⟩
  constructor
  · intro args h
    simp only [ConcatOneDNNHandler] at h
    rw [if_neg hax] at h
    have hval : args.concat_axis
        = (if concat_axis < 0 then concat_axis + input0.dims.length else concat_axis) := by
      split at h
      · split at h
        · cases h
        · injection h with h; rw [← h]
      · injection h with h; rw [← h]
    rw [hval]
    split_ifs <;> omega
  · intro h
    by_cases hone : 1 ∈ input0.mem_desc.dims
    · rcases h with h | h
      · exact absurd hone h
      · obtain ⟨tag, htag⟩ := GetPlainOneDNNFormat_ok_of_rank output.dims.length (by omega)
        exact ⟨_, ConcatOneDNNHandler_with_one ToOneDNNDataType concat_axis input0 rest
          output tag haxis hone htag⟩
    · have hval : ConcatOneDNNHandler ToOneDNNDataType concat_axis (input0 :: rest) output
          = Except.ok
              { dst_md := ⟨output.dims, ToOneDNNDataType input0.dtype, format_tag.any⟩,
                concat_axis :=
                  if concat_axis < 0 then concat_axis + input0.dims.length else concat_axis,
                srcs_md := (input0 :: rest).map (fun t => t.mem_desc) } := by
        simp only [ConcatOneDNNHandler]
        rw [if_neg hax, if_neg hone]
      exact ⟨_, hval⟩

/-- C8 at rank 4 and axis -1: the handler reaches the backend and the axis it gives is
3. -/
theorem ConcatOneDNNHandler_axis_witness :
    ∃ args, ConcatOneDNNHandler oneDNNGetDataType (-1)
        (⟨[2, 3, 4, 5], DataLayout.ONEDNN, DataType.FLOAT32,
            ⟨[2, 3, 4, 5], data_type.f32, format_tag.abcd⟩⟩
          :: [⟨[2, 3, 4, 6], DataLayout.ONEDNN, DataType.FLOAT32,
            ⟨[2, 3, 4, 6], data_type.f32, format_tag.abcd⟩⟩])
        ⟨[2, 3, 4, 11], DataLayout.ONEDNN, DataType.FLOAT32,
          ⟨[], data_type.undef, format_tag.undef⟩⟩ = Except.ok args
      ∧ args.concat_axis = 3 := by
  have hthm := ConcatOneDNNHandler_axis oneDNNGetDataType (-1)
    ⟨[2, 3, 4, 5], DataLayout.ONEDNN, DataType.FLOAT32,
      ⟨[2, 3, 4, 5], data_type.f32, format_tag.abcd⟩⟩
    [⟨[2, 3, 4, 6], DataLayout.ONEDNN, DataType.FLOAT32,
      ⟨[2, 3, 4, 6], data_type.f32, format_tag.abcd⟩⟩]
    ⟨[2, 3, 4, 11], DataLayout.ONEDNN, DataType.FLOAT32,
      ⟨[], data_type.undef, format_tag.undef⟩⟩
    (by decide)
  obtain ⟨args, hargs⟩ := hthm.2 (Or.inr (by decide))
  have haxis := (hthm.1 args hargs).1
  exact ⟨args, hargs, by simpa using haxis⟩

/-! ### The concat kernel -/

theorem std_copy_if_eq_filter {α : Type} (pred : α → Bool) (l : List α) :
    ∀ written : List α, std_copy_if pred l written = written ++ l.filter pred := by
  induction l with
  | nil => intro written; simp [std_copy_if]
  | cons t rest ih =>
    intro written
    simp only [std_copy_if]
    split
    · rename_i h
      rw [ih, List.filter_cons_of_pos h]
      simp
    · rename_i h
      rw [ih, List.filter_cons_of_neg h]

theorem ReduceMultiInput_eq_filter (inputs : List DenseTensor) :
    ReduceMultiInput inputs = inputs.filter (fun t => decide (t.numel > 0)) := by
  unfold ReduceMultiInput
  rw [std_copy_if_eq_filter]
  simp

theorem ReduceMultiInput_skip_empty (before after : List DenseTensor) (e : DenseTensor)
    (he : e.numel = 0) :
    ReduceMultiInput (before ++ e :: after) = ReduceMultiInput (before ++ after) := by
  rw [ReduceMultiInput_eq_filter, ReduceMultiInput_eq_filter, List.filter_append,
    List.filter_append, List.filter_cons_of_neg]
  simp [he]

theorem getD_set_ne (l : List Int) (a j : Nat) (v : Int) (h : j ≠ a) :
    (l.set a v).getD j 0 = l.getD j 0 := by
  simp only [List.getD_eq_getElem?_getD]
  rw [List.getElem?_set_ne (Ne.symm h)]

theorem getD_set_zero (l : List Int) (a : Nat) : (l.set a 0).getD a 0 = 0 := by
  simp only [List.getD_eq_getElem?_getD]
  by_cases h : a < l.length
  · rw [List.getElem?_set_self h]; rfl
  · rw [List.set_eq_of_length_le (by omega), List.getElem?_eq_none (by omega)]; rfl

theorem set_getD_self (l : List Int) (a : Nat) : l.set a (l.getD a 0) = l := by
  by_cases h : a < l.length
  · apply List.ext_getElem?
    intro j
    by_cases hj : a = j
    · subst hj
      rw [List.getElem?_set_self h]
      simp [List.getElem?_eq_getElem h]
    · rw [List.getElem?_set_ne hj]
  · exact List.set_eq_of_length_le (by omega)

theorem ComputeAndCheckShape_add_congr (dims_0 dims_0' : List Int) (axis : Nat)
    (h : dims_0.set axis 0 = dims_0'.set axis 0) (out_dims dims_i : List Int) :
    ComputeAndCheckShape_add dims_0 axis out_dims dims_i
      = ComputeAndCheckShape_add dims_0' axis out_dims dims_i := by
  have hlen : dims_0.length = dims_0'.length := by
    have := congrArg List.length h
    simpa using this
  have hget : ∀ j, j ≠ axis → dims_0.getD j 0 = dims_0'.getD j 0 := by
    intro j hj
    rw [← getD_set_ne dims_0 axis j 0 hj, h, getD_set_ne dims_0' axis j 0 hj]
  unfold ComputeAndCheckShape_add
  rw [hlen]
  have hall : (List.range dims_0'.length).all
        (fun j => j == axis || dims_0.getD j 0 == dims_i.getD j 0)
      = (List.range dims_0'.length).all
        (fun j => j == axis || dims_0'.getD j 0 == dims_i.getD j 0) := by
    rw [Bool.eq_iff_iff, List.all_eq_true, List.all_eq_true]
    constructor
    · intro hh j hj
      by_cases hja : j = axis
      · simp [hja]
      · rw [← hget j hja]; exact hh j hj
    · intro hh j hj
      by_cases hja : j = axis
      · simp [hja]
      · rw [hget j hja]; exact hh j hj
  rw [hall]

theorem ComputeAndCheckShape_add_zero (dims_0 : List Int) (axis : Nat)
    (out_dims dims_i : List Int) (h : dims_i = dims_0.set axis 0) :
    ComputeAndCheckShape_add dims_0 axis out_dims dims_i = Except.ok out_dims := by
  unfold ComputeAndCheckShape_add
  have hlen : ¬ dims_i.length ≠ dims_0.length := by simp [h]
  rw [if_neg hlen]
  have hall : (List.range dims_0.length).all
      (fun j => j == axis || dims_0.getD j 0 == dims_i.getD j 0) = true := by
    rw [List.all_eq_true]
    intro j _
    by_cases hj : j = axis
    · simp [hj]
    · rw [h, getD_set_ne dims_0 axis j 0 hj]
      simp
  rw [if_pos hall, h, getD_set_zero, Int.add_zero, set_getD_self]

theorem ComputeAndCheckShape_add_first (dims_0 : List Int) (axis : Nat) :
    ComputeAndCheckShape_add (dims_0.set axis 0) axis (dims_0.set axis 0) dims_0
      = Except.ok dims_0 := by
  unfold ComputeAndCheckShape_add
  have hlen : ¬ dims_0.length ≠ (dims_0.set axis 0).length := by simp
  rw [if_neg hlen]
  have hall : (List.range (dims_0.set axis 0).length).all
      (fun j => j == axis || (dims_0.set axis 0).getD j 0 == dims_0.getD j 0) = true := by
    rw [List.all_eq_true]
    intro j _
    by_cases hj : j = axis
    · simp [hj]
    · rw [getD_set_ne dims_0 axis j 0 hj]
      simp
  rw [if_pos hall, getD_set_zero, Int.zero_add, List.set_set, set_getD_self]

theorem foldlM_ComputeAndCheckShape_add_set (dims_0 : List Int) (axis : Nat)
    (rest : List (List Int)) : ∀ (out_dims d : List Int),
    rest.foldlM (ComputeAndCheckShape_add dims_0 axis) out_dims = Except.ok d →
    d.set axis 0 = out_dims.set axis 0 := by
  induction rest with
  | nil =>
    intro out_dims d h
    simp only [List.foldlM_nil] at h
    cases h
    rfl
  | cons di rest ih =>
    intro out_dims d h
    rw [List.foldlM_cons] at h
    cases hstep : ComputeAndCheckShape_add dims_0 axis out_dims di with
    | error e =>
      rw [hstep] at h
      cases h
    | ok out' =>
      rw [hstep] at h
      have hrec := ih out' d h
      have hout' : out' = out_dims.set axis (out_dims.getD axis 0 + di.getD axis 0) := by
        unfold ComputeAndCheckShape_add at hstep
        split at hstep
        · cases hstep
        · split at hstep
          · cases hstep; rfl
          · cases hstep
      rw [hrec, hout', List.set_set]

theorem ComputeAndCheckShape_skip (before after : List (List Int)) (e d : List Int)
    (axis : Nat) (hd : ComputeAndCheckShape (before ++ after) axis = Except.ok d)
    (he : e = d.set axis 0) :
    ComputeAndCheckShape (before ++ e :: after) axis = Except.ok d := by
  cases before with
  | nil =>
    cases after with
    | nil => simp [ComputeAndCheckShape] at hd
    | cons dims_0 rest =>
      simp only [List.nil_append, ComputeAndCheckShape] at hd ⊢
      have hset := foldlM_ComputeAndCheckShape_add_set dims_0 axis rest dims_0 d hd
      have he' : e = dims_0.set axis 0 := by rw [he, hset]
      have hfun : ComputeAndCheckShape_add e axis = ComputeAndCheckShape_add dims_0 axis := by
        funext out_dims dims_i
        apply ComputeAndCheckShape_add_congr
        rw [he', List.set_set]
      rw [List.foldlM_cons, hfun]
      have hfirst := ComputeAndCheckShape_add_first dims_0 axis
      rw [← he'] at hfirst
      rw [← hfun, hfirst, hfun]
      exact hd
  | cons dims_0 ps =>
    simp only [List.cons_append, ComputeAndCheckShape] at hd ⊢
    have hset := foldlM_ComputeAndCheckShape_add_set dims_0 axis (ps ++ after) dims_0 d hd
    have he' : e = dims_0.set axis 0 := by rw [he, hset]
    rw [List.foldlM_append] at hd ⊢
    cases hps : List.foldlM (ComputeAndCheckShape_add dims_0 axis) dims_0 ps with
    | error err =>
      rw [hps] at hd
      cases hd
    | ok out_dims =>
      rw [hps] at hd
      show List.foldlM (ComputeAndCheckShape_add dims_0 axis) out_dims (e :: after) = Except.ok d
      rw [List.foldlM_cons, ComputeAndCheckShape_add_zero dims_0 axis out_dims e he']
      exact hd

/-- C10, as amended: the shape computation of `ConcatKernel` gets the shapes of all
inputs, empty ones included. When the computation on the other inputs gives the
shape `d` and an empty input has the shape `d` with 0 on the concat axis, the call
with that input ends as the call without it: same output tensor, same error or
handler arguments. -/
theorem ConcatKernel_skip_empty (ToOneDNNDataType : DataType → data_type)
    (before after : List DenseTensor) (e : DenseTensor) (axis : Scalar)
    (out : DenseTensor) (d : List Int)
    (hempty : e.numel = 0)
    (hshape : ComputeAndCheckShape ((before ++ after).map (fun t => t.dims)) axis.to_size_t
      = Except.ok d)
    (hdims : e.dims = d.set axis.to_size_t 0) :
    ConcatKernel ToOneDNNDataType (before ++ e :: after) axis out
      = ConcatKernel ToOneDNNDataType (before ++ after) axis out := by
  have hskip : ComputeAndCheckShape ((before ++ e :: after).map (fun t => t.dims))
      axis.to_size_t = Except.ok d := by
    rw [List.map_append, List.map_cons]
    rw [List.map_append] at hshape
    exact ComputeAndCheckShape_skip _ _ e.dims d axis.to_size_t hshape hdims
  unfold ConcatKernel
  simp only [ReduceMultiInput_skip_empty before after e hempty, hskip, hshape]

/-- C10 amended at a concrete call: an empty `[0, 3]` input between `[2, 3]` and
`[4, 3]`, concatenated on axis 0. -/
theorem ConcatKernel_skip_empty_witness :
    ConcatKernel oneDNNGetDataType
        ([⟨[2, 3], DataLayout.ONEDNN, DataType.FLOAT32, ⟨[2, 3], data_type.f32, format_tag.ab⟩⟩]
          ++ ⟨[0, 3], DataLayout.NCHW, DataType.FLOAT32, ⟨[], data_type.undef, format_tag.undef⟩⟩
          :: [⟨[4, 3], DataLayout.ONEDNN, DataType.FLOAT32,
                ⟨[4, 3], data_type.f32, format_tag.ab⟩⟩])
        ⟨0⟩ ⟨[], DataLayout.ONEDNN, DataType.FLOAT32, ⟨[], data_type.undef, format_tag.undef⟩⟩
      = ConcatKernel oneDNNGetDataType
        ([⟨[2, 3], DataLayout.ONEDNN, DataType.FLOAT32, ⟨[2, 3], data_type.f32, format_tag.ab⟩⟩]
          ++ [⟨[4, 3], DataLayout.ONEDNN, DataType.FLOAT32,
                ⟨[4, 3], data_type.f32, format_tag.ab⟩⟩])
        ⟨0⟩ ⟨[], DataLayout.ONEDNN, DataType.FLOAT32, ⟨[], data_type.undef, format_tag.undef⟩⟩ :=
  ConcatKernel_skip_empty oneDNNGetDataType
    [⟨[2, 3], DataLayout.ONEDNN, DataType.FLOAT32, ⟨[2, 3], data_type.f32, format_tag.ab⟩⟩]
    [⟨[4, 3], DataLayout.ONEDNN, DataType.FLOAT32, ⟨[4, 3], data_type.f32, format_tag.ab⟩⟩]
    ⟨[0, 3], DataLayout.NCHW, DataType.FLOAT32, ⟨[], data_type.undef, format_tag.undef⟩⟩
    ⟨0⟩ ⟨[], DataLayout.ONEDNN, DataType.FLOAT32, ⟨[], data_type.undef, format_tag.undef⟩⟩
    [6, 3] (by decide) rfl rfl

/-- C10 as stated fails: with the inputs `[2, 3]` and the empty `[0, 5]` on axis 0 the
shape computation sees both shapes and raises `InvalidArgument` (3 against 5 on axis
1), the output keeping its shape `[]`; without the empty input the output is resized
to `[2, 3]` and the handler is built. -/
theorem ConcatKernel_empty_input_counts :
    DenseTensor.numel ⟨[0, 5], DataLayout.ONEDNN, DataType.FLOAT32,
        ⟨[0, 5], data_type.f32, format_tag.ab⟩⟩ = 0
      ∧ (ConcatKernel oneDNNGetDataType
          [⟨[2, 3], DataLayout.ONEDNN, DataType.FLOAT32, ⟨[2, 3], data_type.f32, format_tag.ab⟩⟩,
            ⟨[0, 5], DataLayout.ONEDNN, DataType.FLOAT32, ⟨[0, 5], data_type.f32, format_tag.ab⟩⟩]
          ⟨0⟩ ⟨[], DataLayout.ONEDNN, DataType.FLOAT32,
            ⟨[], data_type.undef, format_tag.undef⟩⟩).result
        = Except.error Error.InvalidArgument
      ∧ (ConcatKernel oneDNNGetDataType
          [⟨[2, 3], DataLayout.ONEDNN, DataType.FLOAT32, ⟨[2, 3], data_type.f32, format_tag.ab⟩⟩,
            ⟨[0, 5], DataLayout.ONEDNN, DataType.FLOAT32, ⟨[0, 5], data_type.f32, format_tag.ab⟩⟩]
          ⟨0⟩ ⟨[], DataLayout.ONEDNN, DataType.FLOAT32,
            ⟨[], data_type.undef, format_tag.undef⟩⟩).out.dims = []
      ∧ (ConcatKernel oneDNNGetDataType
          [⟨[2, 3], DataLayout.ONEDNN, DataType.FLOAT32, ⟨[2, 3], data_type.f32, format_tag.ab⟩⟩]
          ⟨0⟩ ⟨[], DataLayout.ONEDNN, DataType.FLOAT32,
            ⟨[], data_type.undef, format_tag.undef⟩⟩).result
        = Except.ok
            { dst_md := ⟨[2, 3], data_type.f32, format_tag.any⟩,
              concat_axis := 0,
              srcs_md := [⟨[2, 3], data_type.f32, format_tag.ab⟩] }
      ∧ (ConcatKernel oneDNNGetDataType
          [⟨[2, 3], DataLayout.ONEDNN, DataType.FLOAT32, ⟨[2, 3], data_type.f32, format_tag.ab⟩⟩]
          ⟨0⟩ ⟨[], DataLayout.ONEDNN, DataType.FLOAT32,
            ⟨[], data_type.undef, format_tag.undef⟩⟩).out.dims = [2, 3] := by
  refine ⟨by decide, rfl, rfl, rfl, rfl⟩

/-- C9 at the failing input: for two rank 4 inputs of shape `[2,3,4,5]` and
`axis = -1`, the shape computation is given the axis `2^64 - 1`, which is no
dimension of the inputs: nothing is summed and the output is resized to `[2,3,4,5]`,
while the handler is given -1 and hands the axis 3 to the backend. With `axis = 3`
the output is resized to `[2,3,4,10]`. When the inputs differ on the last axis
(`[2,3,4,5]` and `[2,3,4,6]`), `axis = -1` raises `InvalidArgument` and `axis = 3`
gives `[2,3,4,11]`. -/
theorem ConcatKernel_negative_axis :
    Scalar.to_size_t ⟨-1⟩ = 18446744073709551615
      ∧ Scalar.to_int ⟨-1⟩ = -1
      ∧ Scalar.to_size_t ⟨3⟩ = 3
      ∧ (ConcatKernel oneDNNGetDataType
          [⟨[2, 3, 4, 5], DataLayout.ONEDNN, DataType.FLOAT32,
              ⟨[2, 3, 4, 5], data_type.f32, format_tag.abcd⟩⟩,
            ⟨[2, 3, 4, 5], DataLayout.ONEDNN, DataType.FLOAT32,
              ⟨[2, 3, 4, 5], data_type.f32, format_tag.abcd⟩⟩]
          ⟨-1⟩ ⟨[], DataLayout.ONEDNN, DataType.FLOAT32,
            ⟨[], data_type.undef, format_tag.undef⟩⟩).out.dims = [2, 3, 4, 5]
      ∧ (ConcatKernel oneDNNGetDataType
          [⟨[2, 3, 4, 5], DataLayout.ONEDNN, DataType.FLOAT32,
              ⟨[2, 3, 4, 5], data_type.f32, format_tag.abcd⟩⟩,
            ⟨[2, 3, 4, 5], DataLayout.ONEDNN, DataType.FLOAT32,
              ⟨[2, 3, 4, 5], data_type.f32, format_tag.abcd⟩⟩]
          ⟨-1⟩ ⟨[], DataLayout.ONEDNN, DataType.FLOAT32,
            ⟨[], data_type.undef, format_tag.undef⟩⟩).result
        = Except.ok
            { dst_md := ⟨[2, 3, 4, 5], data_type.f32, format_tag.any⟩,
              concat_axis := 3,
              srcs_md := [⟨[2, 3, 4, 5], data_type.f32, format_tag.abcd⟩,
                ⟨[2, 3, 4, 5], data_type.f32, format_tag.abcd⟩] }
      ∧ (ConcatKernel oneDNNGetDataType
          [⟨[2, 3, 4, 5], DataLayout.ONEDNN, DataType.FLOAT32,
              ⟨[2, 3, 4, 5], data_type.f32, format_tag.abcd⟩⟩,
            ⟨[2, 3, 4, 5], DataLayout.ONEDNN, DataType.FLOAT32,
              ⟨[2, 3, 4, 5], data_type.f32, format_tag.abcd⟩⟩]
          ⟨3⟩ ⟨[], DataLayout.ONEDNN, DataType.FLOAT32,
            ⟨[], data_type.undef, format_tag.undef⟩⟩).out.dims = [2, 3, 4, 10]
      ∧ (ConcatKernel oneDNNGetDataType
          [⟨[2, 3, 4, 5], DataLayout.ONEDNN, DataType.FLOAT32,
              ⟨[2, 3, 4, 5], data_type.f32, format_tag.abcd⟩⟩,
            ⟨[2, 3, 4, 6], DataLayout.ONEDNN, DataType.FLOAT32,
              ⟨[2, 3, 4, 6], data_type.f32, format_tag.abcd⟩⟩]
          ⟨-1⟩ ⟨[], DataLayout.ONEDNN, DataType.FLOAT32,
            ⟨[], data_type.undef, format_tag.undef⟩⟩).result
        = Except.error Error.InvalidArgument
      ∧ (ConcatKernel oneDNNGetDataType
          [⟨[2, 3, 4, 5], DataLayout.ONEDNN, DataType.FLOAT32,
              ⟨[2, 3, 4, 5], data_type.f32, format_tag.abcd⟩⟩,
            ⟨[2, 3, 4, 6], DataLayout.ONEDNN, DataType.FLOAT32,
              ⟨[2, 3, 4, 6], data_type.f32, format_tag.abcd⟩⟩]
          ⟨3⟩ ⟨[], DataLayout.ONEDNN, DataType.FLOAT32,
            ⟨[], data_type.undef, format_tag.undef⟩⟩).out.dims = [2, 3, 4, 11] := by
  refine ⟨by decide, by decide, by decide, rfl, rfl, rfl, rfl, rfl⟩

/-! ### Filtering and layout validation in the concat kernel -/

theorem EnforceLayouts_ok_iff (inputs : List DenseTensor) :
    EnforceLayouts inputs = Except.ok () ↔ ∀ t ∈ inputs, t.layout = DataLayout.ONEDNN := by
  induction inputs with
  | nil => simp [EnforceLayouts]
  | cons input rest ih =>
    simp only [EnforceLayouts, List.mem_cons, forall_eq_or_imp]
    by_cases h : input.layout = DataLayout.ONEDNN
    · rw [if_pos h, ih]
      exact ⟨fun hr => ⟨h, hr⟩, fun hr => hr.2⟩
    · rw [if_neg h]
      constructor
      · intro hc; cases hc
      · intro hc; exact absurd hc.1 h

theorem EnforceLayouts_error_iff (inputs : List DenseTensor) :
    EnforceLayouts inputs = Except.error Error.InvalidArgument
      ↔ ∃ t ∈ inputs, t.layout ≠ DataLayout.ONEDNN := by
  induction inputs with
  | nil => simp [EnforceLayouts]
  | cons input rest ih =>
    simp only [EnforceLayouts, List.mem_cons, exists_eq_or_imp]
    by_cases h : input.layout = DataLayout.ONEDNN
    · rw [if_pos h, ih]
      constructor
      · intro hr; exact Or.inr hr
      · intro hr
        rcases hr with hr | hr
        · exact absurd h hr
        · exact hr
    · rw [if_neg h]
      exact ⟨fun _ => Or.inl h, fun _ => rfl⟩

/-- C12: `ReduceMultiInput` returns the order-preserving filter of the inputs by
`numel() > 0`: a sublist of the inputs with only non-empty tensors, in which every
non-empty tensor occurs as often as in the inputs, and the input list itself when
every input is non-empty. -/
theorem ReduceMultiInput_is_filter (inputs : List DenseTensor) :
    ReduceMultiInput inputs = inputs.filter (fun t => decide (t.numel > 0))
      ∧ (ReduceMultiInput inputs).Sublist inputs
      ∧ (∀ t ∈ ReduceMultiInput inputs, t ∈ inputs ∧ t.numel > 0)
      ∧ (∀ t, t.numel > 0 → (ReduceMultiInput inputs).count t = inputs.count t)
      ∧ ((∀ t ∈ inputs, t.numel > 0) → ReduceMultiInput inputs = inputs) := by
  have hf := ReduceMultiInput_eq_filter inputs
  refine ⟨hf, ?_, ?_, ?_, ?_⟩
  · rw [hf]; exact List.filter_sublist inputs
  · intro t ht
    rw [hf, List.mem_filter] at ht
    exact ⟨ht.1, by simpa using ht.2⟩
  · intro t ht
    rw [hf]
    exact List.count_filter (by simpa using ht)
  · intro hall
    rw [hf, List.filter_eq_self]
    intro t ht
    simpa using hall t ht

theorem ReduceMultiInput_skip_not_positive (before after : List DenseTensor)
    (e : DenseTensor) (he : ¬ e.numel > 0) :
    ReduceMultiInput (before ++ e :: after) = ReduceMultiInput (before ++ after) := by
  rw [ReduceMultiInput_eq_filter, ReduceMultiInput_eq_filter, List.filter_append,
    List.filter_append, List.filter_cons_of_neg]
  simpa using he

theorem EnforceLayouts_ReduceMultiInput_error_iff (x : List DenseTensor) :
    EnforceLayouts (ReduceMultiInput x) = Except.error Error.InvalidArgument
      ↔ ∃ t ∈ x, t.numel > 0 ∧ t.layout ≠ DataLayout.ONEDNN := by
  rw [EnforceLayouts_error_iff, ReduceMultiInput_eq_filter]
  constructor
  · rintro ⟨t, ht, hl⟩
    rw [List.mem_filter] at ht
    exact ⟨t, ht.1, by simpa using ht.2, hl⟩
  · rintro ⟨t, ht, hn, hl⟩
    exact ⟨t, List.mem_filter.mpr ⟨ht, by simpa using hn⟩, hl⟩

theorem EnforceLayouts_ReduceMultiInput_ok (x : List DenseTensor)
    (hall : ∀ t ∈ x, t.numel > 0 → t.layout = DataLayout.ONEDNN) :
    EnforceLayouts (ReduceMultiInput x) = Except.ok () := by
  rw [EnforceLayouts_ok_iff, ReduceMultiInput_eq_filter]
  intro t ht
  rw [List.mem_filter] at ht
  exact hall t ht.1 (by simpa using ht.2)

/-- C13: in `ConcatKernel` the layout validation runs on the filtered inputs, before
the output is resized and before the handler is built.
(1) The validation raises `InvalidArgument` if and only if some input with
`numel() > 0` has a layout other than `ONEDNN`.
(2) When there is such an input, the call ends with `InvalidArgument`, the output
tensor as it was and no handler.
(3) When there is none, whatever the layouts of the empty inputs, the call does not
end at the validation: it ends as the shape computation, the resize and the handler
on the filtered inputs end.
(4) When moreover the shape computation and the handler succeed, the call ends with
`InvalidArgument` if and only if some non-empty input has a layout other than
`ONEDNN`.
(5) The layout of an input with no element does not change how the call ends. -/
theorem ConcatKernel_layout_validation (ToOneDNNDataType : DataType → data_type)
    (x : List DenseTensor) (axis : Scalar) (out : DenseTensor) :
    (EnforceLayouts (ReduceMultiInput x) = Except.error Error.InvalidArgument
        ↔ ∃ t ∈ x, t.numel > 0 ∧ t.layout ≠ DataLayout.ONEDNN)
      ∧ ((∃ t ∈ x, t.numel > 0 ∧ t.layout ≠ DataLayout.ONEDNN) →
          ConcatKernel ToOneDNNDataType x axis out
            = { out := out, result := Except.error Error.InvalidArgument })
      ∧ ((∀ t ∈ x, t.numel > 0 → t.layout = DataLayout.ONEDNN) →
          ConcatKernel ToOneDNNDataType x axis out
            = (match ComputeAndCheckShape (x.map (fun t => t.dims)) axis.to_size_t with
              | Except.error e => { out := out, result := Except.error e }
              | Except.ok out_dims =>
                { out := out.Resize out_dims,
                  result := ConcatOneDNNHandler ToOneDNNDataType axis.to_int
                    (ReduceMultiInput x) (out.Resize out_dims) }))
      ∧ (∀ (out_dims : List Int) (args : ConcatPrimitiveArgs),
          ComputeAndCheckShape (x.map (fun t => t.dims)) axis.to_size_t
            = Except.ok out_dims →
          ConcatOneDNNHandler ToOneDNNDataType axis.to_int (ReduceMultiInput x)
            (out.Resize out_dims) = Except.ok args →
          ((ConcatKernel ToOneDNNDataType x axis out).result
              = Except.error Error.InvalidArgument
            ↔ ∃ t ∈ x, t.numel > 0 ∧ t.layout ≠ DataLayout.ONEDNN))
      ∧ (∀ (before after : List DenseTensor) (e : DenseTensor) (layout : DataLayout),
          x = before ++ e :: after → ¬ e.numel > 0 →
          ConcatKernel ToOneDNNDataType (before ++ { e with layout := layout } :: after)
              axis out
            = ConcatKernel ToOneDNNDataType x axis out) := by
  have hif : (∃ t ∈ x, t.numel > 0 ∧ t.layout ≠ DataLayout.ONEDNN) →
      ConcatKernel ToOneDNNDataType x axis out
        = { out := out, result := Except.error Error.InvalidArgument } := by
    intro hex
    have herr := (EnforceLayouts_ReduceMultiInput_error_iff x).mpr hex
    unfold ConcatKernel
    simp only [herr]
  have hpass : (∀ t ∈ x, t.numel > 0 → t.layout = DataLayout.ONEDNN) →
      ConcatKernel ToOneDNNDataType x axis out
        = (match ComputeAndCheckShape (x.map (fun t => t.dims)) axis.to_size_t with
          | Except.error e => { out := out, result := Except.error e }
          | Except.ok out_dims =>
            { out := out.Resize out_dims,
              result := ConcatOneDNNHandler ToOneDNNDataType axis.to_int
                (ReduceMultiInput x) (out.Resize out_dims) }) := by
    intro hall
    have hok := EnforceLayouts_ReduceMultiInput_ok x hall
    unfold ConcatKernel
    simp only [hok]
  refine ⟨EnforceLayouts_ReduceMultiInput_error_iff x, hif, hpass, ?_, ?_⟩
  · intro out_dims args hshape hhandler
    constructor
    · intro hres
      by_contra hnone
      have hall : ∀ t ∈ x, t.numel > 0 → t.layout = DataLayout.ONEDNN := by
        intro t ht hn
        by_contra hl
        exact hnone ⟨t, ht, hn, hl⟩
      rw [hpass hall, hshape] at hres
      simp only [hhandler] at hres
      cases hres
    · intro hex
      rw [hif hex]
  · intro before after e layout hx he
    have he' : ¬ DenseTensor.numel { e with layout := layout } > 0 := he
    subst hx
    unfold ConcatKernel
    rw [ReduceMultiInput_skip_not_positive before after _ he',
      ReduceMultiInput_skip_not_positive before after e he]
    simp only [List.map_append, List.map_cons]

/-- C13 at concrete calls: with the inputs `[2, 3]` in `ONEDNN`, an empty `[0, 3]` in
`NCHW` and `[4, 3]` in `ONEDNN` on axis 0 the call passes the validation and builds
the handler for the output `[6, 3]`; with the single non-empty input `[2, 3]` in
`NCHW` it ends with `InvalidArgument` and the output as it was. -/
theorem ConcatKernel_layout_validation_witness :
    ConcatKernel oneDNNGetDataType
        [⟨[2, 3], DataLayout.ONEDNN, DataType.FLOAT32, ⟨[2, 3], data_type.f32, format_tag.ab⟩⟩,
          ⟨[0, 3], DataLayout.NCHW, DataType.FLOAT32, ⟨[], data_type.undef, format_tag.undef⟩⟩,
          ⟨[4, 3], DataLayout.ONEDNN, DataType.FLOAT32, ⟨[4, 3], data_type.f32, format_tag.ab⟩⟩]
        ⟨0⟩ ⟨[7], DataLayout.NCHW, DataType.FLOAT32, ⟨[], data_type.undef, format_tag.undef⟩⟩
      = { out := ⟨[6, 3], DataLayout.NCHW, DataType.FLOAT32,
            ⟨[], data_type.undef, format_tag.undef⟩⟩,
          result := Except.ok
            { dst_md := ⟨[6, 3], data_type.f32, format_tag.any⟩,
              concat_axis := 0,
              srcs_md := [⟨[2, 3], data_type.f32, format_tag.ab⟩,
                ⟨[4, 3], data_type.f32, format_tag.ab⟩] } }
      ∧ ConcatKernel oneDNNGetDataType
        [⟨[2, 3], DataLayout.NCHW, DataType.FLOAT32, ⟨[2, 3], data_type.f32, format_tag.ab⟩⟩]
        ⟨0⟩ ⟨[7], DataLayout.NCHW, DataType.FLOAT32, ⟨[], data_type.undef, format_tag.undef⟩⟩
      = { out := ⟨[7], DataLayout.NCHW, DataType.FLOAT32,
            ⟨[], data_type.undef, format_tag.undef⟩⟩,
          result := Except.error Error.InvalidArgument } :=
  ⟨(ConcatKernel_layout_validation oneDNNGetDataType
      [⟨[2, 3], DataLayout.ONEDNN, DataType.FLOAT32, ⟨[2, 3], data_type.f32, format_tag.ab⟩⟩,
        ⟨[0, 3], DataLayout.NCHW, DataType.FLOAT32, ⟨[], data_type.undef, format_tag.undef⟩⟩,
        ⟨[4, 3], DataLayout.ONEDNN, DataType.FLOAT32, ⟨[4, 3], data_type.f32, format_tag.ab⟩⟩]
      ⟨0⟩ ⟨[7], DataLayout.NCHW, DataType.FLOAT32,
        ⟨[], data_type.undef, format_tag.undef⟩⟩).2.2.1 (by decide),
    (ConcatKernel_layout_validation oneDNNGetDataType
      [⟨[2, 3], DataLayout.NCHW, DataType.FLOAT32, ⟨[2, 3], data_type.f32, format_tag.ab⟩⟩]
      ⟨0⟩ ⟨[7], DataLayout.NCHW, DataType.FLOAT32,
        ⟨[], data_type.undef, format_tag.undef⟩⟩).2.1
      ⟨_, List.mem_cons_self _ _, by decide, by decide⟩⟩

/-- C14: the table of `OneDNNFormatForSize`. Rank 1 gives `x` and rank 2 gives `nc`
for every format; rank 3 maps `nchw` to `ncw` and `nhwc` to `nwc`; rank 4 maps `goihw`
to `oihw`; rank 5 maps `goidhw` to `oidhw`, `nchw` to `ncdhw` and `nhwc` to `ndhwc`;
rank 6 maps `nchw` to `abcdef`; every other pair of rank and format, so every rank 0
or above 6, gives the format back. The function is total. -/
theorem OneDNNFormatForSize_table :
    (∀ fmt, OneDNNFormatForSize 1 fmt = format_tag.x)
      ∧ (∀ fmt, OneDNNFormatForSize 2 fmt = format_tag.nc)
      ∧ OneDNNFormatForSize 3 format_tag.nchw = format_tag.ncw
      ∧ OneDNNFormatForSize 3 format_tag.nhwc = format_tag.nwc
      ∧ OneDNNFormatForSize 4 format_tag.goihw = format_tag.oihw
      ∧ OneDNNFormatForSize 5 format_tag.goidhw = format_tag.oidhw
      ∧ OneDNNFormatForSize 5 format_tag.nchw = format_tag.ncdhw
      ∧ OneDNNFormatForSize 5 format_tag.nhwc = format_tag.ndhwc
      ∧ OneDNNFormatForSize 6 format_tag.nchw = format_tag.abcdef
      ∧ (∀ (dims_size : Nat) (fmt : format_tag),
          ¬ (dims_size = 1 ∨ dims_size = 2
            ∨ (dims_size = 3 ∧ (fmt = format_tag.nchw ∨ fmt = format_tag.nhwc))
            ∨ (dims_size = 4 ∧ fmt = format_tag.goihw)
            ∨ (dims_size = 5
              ∧ (fmt = format_tag.goidhw ∨ fmt = format_tag.nchw ∨ fmt = format_tag.nhwc))
            ∨ (dims_size = 6 ∧ fmt = format_tag.nchw)) →
          OneDNNFormatForSize dims_size fmt = fmt)
      ∧ (∀ fmt, OneDNNFormatForSize 0 fmt = fmt)
      ∧ (∀ (dims_size : Nat) (fmt : format_tag), 7 ≤ dims_size →
          OneDNNFormatForSize dims_size fmt = fmt) := by
  refine ⟨fun _ => rfl, fun _ => rfl, rfl, rfl, rfl, rfl, rfl, rfl, rfl, ?_, fun _ => rfl, ?_⟩
  · intro dims_size fmt h
    simp only [not_or, not_and] at h
    obtain ⟨h1, h2, h3, h4, h5, h6⟩ := h
    unfold OneDNNFormatForSize
    rw [if_neg h1, if_neg h2]
    split
    · rename_i e3
      have := h3 e3
      rw [if_neg this.1, if_neg this.2]
    · split
      · rename_i e4
        rw [if_neg (h4 e4)]
      · split
        · rename_i e5
          have := h5 e5
          rw [if_neg this.1, if_neg this.2.1, if_neg this.2.2]
        · split
          · rename_i e6
            rw [if_neg (h6 e6)]
          · rfl
  · intro dims_size fmt h
    unfold OneDNNFormatForSize
    rw [if_neg (by omega), if_neg (by omega), if_neg (by omega), if_neg (by omega),
      if_neg (by omega), if_neg (by omega)]

theorem foldl_to_string_eq_flatten (v : List Int) :
    v.foldl (fun k d => k ++ to_string d) [] = (v.map to_string).flatten := by
  induction v with
  | nil => rfl
  | cons d ds ih =>
    simp only [List.foldl_cons, List.map_cons, List.flatten_cons]
    rw [foldl_to_string_append, ih]
    simp

theorem AppendKey_eq_spec_representation (arg : KeyArg) :
    AppendKey [] arg = spec_representation arg := by
  cases arg with
  | dims v => simp only [AppendKey, spec_representation]; exact foldl_to_string_eq_flatten v
  | floating_dims texts =>
    simp only [AppendKey, spec_representation]
    rw [foldl_text_append texts []]
    simp
  | _ => simp [AppendKey, spec_representation]

/-- C16: `CreateKey` is the concatenation, in call order, of the representation of
every argument (decimal string of a number or of an enumeration value, a string as
it is, a vector as the decimal strings of its elements with nothing between them),
followed by the key suffix of the context. The string of a number is decimal: for
`n >= 0` its digits read in base ten give `n`, and for `n < 0` it is a minus sign
before the string of `-n`. -/
theorem CreateKey_eq_spec_BuildKey (key_suffix : List Char) (args : List KeyArg) :
    CreateKey key_suffix args = spec_BuildKey key_suffix args
      ∧ (∀ n : Int, 0 ≤ n → decimal_value (to_string n) = n.toNat)
      ∧ (∀ n : Int, n < 0 → to_string n = '-' :: to_string (-n)) := by
  refine ⟨?_, ?_, ?_⟩
  · unfold CreateKey spec_BuildKey
    congr 1
    induction args with
    | nil => rfl
    | cons a rest ih =>
      simp only [List.foldl_cons, List.map_cons, List.flatten_cons]
      rw [foldl_AppendKey_append, ih, AppendKey_eq_spec_representation]
  · intro n hn
    unfold to_string decimal_value
    rw [if_neg (by omega)]
    have := toDigitsCore_value (n.natAbs + 1) n.natAbs (by omega)
    unfold Nat.toDigits
    rw [this]
    omega
  · intro n hn
    unfold to_string
    rw [if_pos hn, if_neg (by omega), Int.natAbs_neg]

/-- C17: `MatchShapeToLayout` leaves a tensor of rank 1 or 2 as it is, for every pair
of layouts. -/
theorem MatchShapeToLayout_small_rank (t : DenseTensor) (from_ to_ : DataLayout)
    (hrank : t.dims.length = 1 ∨ t.dims.length = 2) :
    MatchShapeToLayout t from_ to_ = t := by
  unfold MatchShapeToLayout
  rw [if_pos (by omega)]

/-- C17 at a rank 2 tensor with a dimension beyond the `int` range, from ONEDNN to
NHWC, and at a rank 1 tensor from NDHWC to ONEDNN. -/
theorem MatchShapeToLayout_small_rank_witness :
    MatchShapeToLayout
        ⟨[4294967296, 3], DataLayout.ONEDNN, DataType.FLOAT32,
          ⟨[4294967296, 3], data_type.f32, format_tag.ab⟩⟩
        DataLayout.ONEDNN DataLayout.NHWC
      = ⟨[4294967296, 3], DataLayout.ONEDNN, DataType.FLOAT32,
          ⟨[4294967296, 3], data_type.f32, format_tag.ab⟩⟩
      ∧ MatchShapeToLayout
        ⟨[8], DataLayout.NDHWC, DataType.INT8, ⟨[8], data_type.s8, format_tag.a⟩⟩
        DataLayout.NDHWC DataLayout.ONEDNN
      = ⟨[8], DataLayout.NDHWC, DataType.INT8, ⟨[8], data_type.s8, format_tag.a⟩⟩ :=
  ⟨MatchShapeToLayout_small_rank _ DataLayout.ONEDNN DataLayout.NHWC (Or.inr rfl),
    MatchShapeToLayout_small_rank _ DataLayout.NDHWC DataLayout.ONEDNN (Or.inl rfl)⟩

/-- C19: when no input's memory descriptor has size 1 on any axis (and the axis is in
range), the handler reaches the backend with a destination descriptor of the output's
dimensions and the tag `any`. -/
theorem ConcatOneDNNHandler_any_tag (ToOneDNNDataType : DataType → data_type)
    (concat_axis : Int) (input0 : DenseTensor) (rest : List DenseTensor)
    (output : DenseTensor)
    (haxis : -(input0.dims.length : Int) ≤ concat_axis ∧ concat_axis < input0.dims.length)
    (hnone : ∀ t ∈ input0 :: rest, 1 ∉ t.mem_desc.dims) :
    ∃ args, ConcatOneDNNHandler ToOneDNNDataType concat_axis (input0 :: rest) output
        = Except.ok args
      ∧ args.dst_md.dims = output.dims
      ∧ args.dst_md.format = format_tag.any := by
  have hax : ¬ ¬ (concat_axis ≥ -(input0.dims.length : Int) ∧ concat_axis < input0.dims.length) :=
    not_not.mpr ⟨haxis.1, haxis.2⟩
  have hone : 1 ∉ input0.mem_desc.dims := hnone input0 (List.mem_cons_self _ _)
  have hval : ConcatOneDNNHandler ToOneDNNDataType concat_axis (input0 :: rest) output
      = Except.ok
          { dst_md := ⟨output.dims, ToOneDNNDataType input0.dtype, format_tag.any⟩,
            concat_axis :=
              if concat_axis < 0 then concat_axis + input0.dims.length else concat_axis,
            srcs_md := (input0 :: rest).map (fun t => t.mem_desc) } := by
    simp only [ConcatOneDNNHandler]
    rw [if_neg hax, if_neg hone]
  exact ⟨_, hval, rfl, rfl⟩

/-- C19 at the inputs `[2,3,10]` and `[4,3,10]` on axis 0, output `[6,3,10]`. -/
theorem ConcatOneDNNHandler_any_tag_witness :
    ∃ args, ConcatOneDNNHandler oneDNNGetDataType 0
        (⟨[2, 3, 10], DataLayout.ONEDNN, DataType.FLOAT32,
            ⟨[2, 3, 10], data_type.f32, format_tag.abc⟩⟩
          :: [⟨[4, 3, 10], DataLayout.ONEDNN, DataType.FLOAT32,
            ⟨[4, 3, 10], data_type.f32, format_tag.abc⟩⟩])
        ⟨[6, 3, 10], DataLayout.ONEDNN, DataType.FLOAT32,
          ⟨[], data_type.undef, format_tag.undef⟩⟩ = Except.ok args
      ∧ args.dst_md.dims = [6, 3, 10]
      ∧ args.dst_md.format = format_tag.any :=
  ConcatOneDNNHandler_any_tag oneDNNGetDataType 0
    ⟨[2, 3, 10], DataLayout.ONEDNN, DataType.FLOAT32,
      ⟨[2, 3, 10], data_type.f32, format_tag.abc⟩⟩
    [⟨[4, 3, 10], DataLayout.ONEDNN, DataType.FLOAT32,
      ⟨[4, 3, 10], data_type.f32, format_tag.abc⟩⟩]
    ⟨[6, 3, 10], DataLayout.ONEDNN, DataType.FLOAT32,
      ⟨[], data_type.undef, format_tag.undef⟩⟩
    (by decide) (by decide)

/-! ### Rotation of the dimensions -/

theorem MatchShapeToLayout_to_channel_last_of_fits (t : DenseTensor) (d0 d1 : Int)
    (rest : List Int) (hd : t.dims = d0 :: d1 :: rest) (hrest : rest ≠ [])
    (hfit : ∀ d ∈ t.dims, -2147483648 ≤ d ∧ d < 2147483648)
    (to_ : DataLayout) (hto : to_ = DataLayout.NHWC ∨ to_ = DataLayout.NDHWC) :
    MatchShapeToLayout t DataLayout.ONEDNN to_ = t.Resize (d0 :: (rest ++ [d1])) := by
  rw [MatchShapeToLayout_to_channel_last t d0 d1 rest hd hrest to_ hto]
  have hfit' : ∀ d ∈ d0 :: (rest ++ [d1]), -2147483648 ≤ d ∧ d < 2147483648 := by
    intro d hmem
    apply hfit d
    rw [hd]
    simp only [List.mem_cons, List.mem_append, List.mem_singleton] at hmem ⊢
    tauto
  have e1 : (d0 :: (rest ++ [d1])).map static_cast_int = d0 :: (rest ++ [d1]) :=
    vectorize_int_of_fits _ hfit'
  rw [e1]

theorem MatchShapeToLayout_to_onednn_of_fits (t : DenseTensor) (d0 l : Int)
    (mid : List Int) (hd : t.dims = d0 :: (mid ++ [l])) (hmid : mid ≠ [])
    (hfit : ∀ d ∈ t.dims, -2147483648 ≤ d ∧ d < 2147483648)
    (from_ : DataLayout) (hfrom : from_ = DataLayout.NHWC ∨ from_ = DataLayout.NDHWC) :
    MatchShapeToLayout t from_ DataLayout.ONEDNN = t.Resize (d0 :: l :: mid) := by
  rw [MatchShapeToLayout_to_onednn t d0 l mid hd hmid from_ hfrom]
  have hfit' : ∀ d ∈ d0 :: l :: mid, -2147483648 ≤ d ∧ d < 2147483648 := by
    intro d hmem
    apply hfit d
    rw [hd]
    simp only [List.mem_cons, List.mem_append, List.mem_singleton] at hmem ⊢
    tauto
  have e1 : (d0 :: l :: mid).map static_cast_int = d0 :: l :: mid :=
    vectorize_int_of_fits _ hfit'
  rw [e1]

theorem MatchShapeToLayout_other_pairs (t : DenseTensor) (from_ to_ : DataLayout)
    (h : ¬ ((from_ = DataLayout.ONEDNN ∧ (to_ = DataLayout.NHWC ∨ to_ = DataLayout.NDHWC))
      ∨ ((from_ = DataLayout.NHWC ∨ from_ = DataLayout.NDHWC) ∧ to_ = DataLayout.ONEDNN))) :
    MatchShapeToLayout t from_ to_ = t := by
  unfold MatchShapeToLayout
  split
  · rfl
  · cases from_ <;> cases to_ <;> simp at h ⊢

/-- C15, as amended: for a shape `[d0, d1, ..., d(n-1)]` of rank at least 3 whose
dimensions fit the C++ type `int`, `MatchShapeToLayout` from ONEDNN to NHWC or NDHWC
gives `[d0, d2, ..., d(n-1), d1]`, and from NHWC or NDHWC to ONEDNN it gives
`[d0, d(n-1), d1, ..., d(n-2)]`. -/
theorem MatchShapeToLayout_rotation (t : DenseTensor) (d0 d1 : Int) (mid : List Int)
    (dlast : Int) (layout : DataLayout)
    (hd : t.dims = d0 :: d1 :: (mid ++ [dlast]))
    (hfit : ∀ d ∈ t.dims, -2147483648 ≤ d ∧ d < 2147483648)
    (hlayout : layout = DataLayout.NHWC ∨ layout = DataLayout.NDHWC) :
    (MatchShapeToLayout t DataLayout.ONEDNN layout).dims = d0 :: (mid ++ [dlast, d1])
      ∧ (MatchShapeToLayout t layout DataLayout.ONEDNN).dims = d0 :: dlast :: d1 :: mid := by
  constructor
  · rw [MatchShapeToLayout_to_channel_last_of_fits t d0 d1 (mid ++ [dlast]) hd (by simp) hfit
      layout hlayout]
    simp [DenseTensor.Resize]
  · have hd' : t.dims = d0 :: ((d1 :: mid) ++ [dlast]) := by rw [hd]; simp
    rw [MatchShapeToLayout_to_onednn_of_fits t d0 dlast (d1 :: mid) hd' (by simp) hfit
      layout hlayout]
    simp [DenseTensor.Resize]

/-- C15 amended at the shape `[2, 3, 4, 5]`: to NHWC it becomes `[2, 4, 5, 3]`, to
ONEDNN it becomes `[2, 5, 3, 4]`. -/
theorem MatchShapeToLayout_rotation_witness :
    (MatchShapeToLayout
        ⟨[2, 3, 4, 5], DataLayout.ONEDNN, DataType.FLOAT32,
          ⟨[2, 3, 4, 5], data_type.f32, format_tag.abcd⟩⟩
        DataLayout.ONEDNN DataLayout.NHWC).dims = [2, 4, 5, 3]
      ∧ (MatchShapeToLayout
        ⟨[2, 3, 4, 5], DataLayout.ONEDNN, DataType.FLOAT32,
          ⟨[2, 3, 4, 5], data_type.f32, format_tag.abcd⟩⟩
        DataLayout.NHWC DataLayout.ONEDNN).dims = [2, 5, 3, 4] :=
  MatchShapeToLayout_rotation
    ⟨[2, 3, 4, 5], DataLayout.ONEDNN, DataType.FLOAT32,
      ⟨[2, 3, 4, 5], data_type.f32, format_tag.abcd⟩⟩
    2 3 [4] 5 DataLayout.NHWC rfl (by decide) (Or.inl rfl)

/-- C15 as stated fails: from the shape `[4294967296, 3, 5]` the rotation to NHWC
gives `[0, 5, 3]`, not `[4294967296, 5, 3]`. -/
theorem MatchShapeToLayout_rotation_narrows :
    (MatchShapeToLayout
        ⟨[4294967296, 3, 5], DataLayout.ONEDNN, DataType.FLOAT32,
          ⟨[4294967296, 3, 5], data_type.f32, format_tag.abc⟩⟩
        DataLayout.ONEDNN DataLayout.NHWC).dims = [0, 5, 3]
      ∧ (MatchShapeToLayout
        ⟨[4294967296, 3, 5], DataLayout.ONEDNN, DataType.FLOAT32,
          ⟨[4294967296, 3, 5], data_type.f32, format_tag.abc⟩⟩
        DataLayout.ONEDNN DataLayout.NHWC).dims ≠ [4294967296, 5, 3] := by
  refine ⟨by decide, by decide⟩

/-- C20, as amended: for a tensor of rank at least 3 whose dimensions fit the C++ type
`int`, and every pair of layouts, `MatchShapeToLayout` keeps the rank, the first
dimension, the dimensions up to their order and the element count; for a pair other
than ONEDNN to NHWC/NDHWC and NHWC/NDHWC to ONEDNN the tensor is unchanged. -/
theorem MatchShapeToLayout_permutes (t : DenseTensor) (from_ to_ : DataLayout)
    (hrank : 3 ≤ t.dims.length)
    (hfit : ∀ d ∈ t.dims, -2147483648 ≤ d ∧ d < 2147483648) :
    (MatchShapeToLayout t from_ to_).dims.length = t.dims.length
      ∧ (MatchShapeToLayout t from_ to_).dims.head? = t.dims.head?
      ∧ (MatchShapeToLayout t from_ to_).dims.Perm t.dims
      ∧ (MatchShapeToLayout t from_ to_).numel = t.numel
      ∧ (¬ ((from_ = DataLayout.ONEDNN ∧ (to_ = DataLayout.NHWC ∨ to_ = DataLayout.NDHWC))
            ∨ ((from_ = DataLayout.NHWC ∨ from_ = DataLayout.NDHWC)
              ∧ to_ = DataLayout.ONEDNN)) →
          MatchShapeToLayout t from_ to_ = t) := by
  by_cases hpair : (from_ = DataLayout.ONEDNN ∧ (to_ = DataLayout.NHWC ∨ to_ = DataLayout.NDHWC))
      ∨ ((from_ = DataLayout.NHWC ∨ from_ = DataLayout.NDHWC) ∧ to_ = DataLayout.ONEDNN)
  · rcases hpair with ⟨hfrom, hto⟩ | ⟨hfrom, hto⟩
    · subst hfrom
      obtain ⟨d0, d1, r, rs, hd⟩ := list_three_split t.dims hrank
      rw [MatchShapeToLayout_to_channel_last_of_fits t d0 d1 (r :: rs) hd (by simp) hfit to_ hto]
      have hperm : (d0 :: ((r :: rs) ++ [d1])).Perm (d0 :: d1 :: (r :: rs)) :=
        List.Perm.cons d0 (List.perm_append_singleton d1 (r :: rs))
      refine ⟨?_, ?_, ?_, ?_, ?_⟩
      · simp [DenseTensor.Resize, hd]
      · simp [DenseTensor.Resize, hd]
      · simp only [DenseTensor.Resize, hd]; exact hperm
      · simp only [DenseTensor.numel, DenseTensor.Resize, hd]; exact hperm.prod_eq
      · intro hc; exact absurd (Or.inl ⟨rfl, hto⟩) hc
    · subst hto
      obtain ⟨d0, m, ms, b, hd⟩ := list_three_split_back t.dims hrank
      rw [MatchShapeToLayout_to_onednn_of_fits t d0 b (m :: ms) hd (by simp) hfit from_ hfrom]
      have hperm : (d0 :: b :: (m :: ms)).Perm (d0 :: ((m :: ms) ++ [b])) :=
        List.Perm.cons d0 (List.perm_append_singleton b (m :: ms)).symm
      refine ⟨?_, ?_, ?_, ?_, ?_⟩
      · simp [DenseTensor.Resize, hd]
      · simp [DenseTensor.Resize, hd]
      · simp only [DenseTensor.Resize, hd]; exact hperm
      · simp only [DenseTensor.numel, DenseTensor.Resize, hd]; exact hperm.prod_eq
      · intro hc; exact absurd (Or.inr ⟨hfrom, rfl⟩) hc
  · rw [MatchShapeToLayout_other_pairs t from_ to_ hpair]
    exact ⟨rfl, rfl, List.Perm.refl _, rfl, fun _ => rfl⟩

/-- C20 amended at the shape `[2, 3, 4, 5]` from NDHWC to ONEDNN. -/
theorem MatchShapeToLayout_permutes_witness :
    (MatchShapeToLayout
        ⟨[2, 3, 4, 5], DataLayout.NDHWC, DataType.FLOAT32,
          ⟨[2, 3, 4, 5], data_type.f32, format_tag.abcd⟩⟩
        DataLayout.NDHWC DataLayout.ONEDNN).dims.Perm [2, 3, 4, 5]
      ∧ (MatchShapeToLayout
        ⟨[2, 3, 4, 5], DataLayout.NDHWC, DataType.FLOAT32,
          ⟨[2, 3, 4, 5], data_type.f32, format_tag.abcd⟩⟩
        DataLayout.NDHWC DataLayout.ONEDNN).numel = 120 :=
  ⟨(MatchShapeToLayout_permutes
      ⟨[2, 3, 4, 5], DataLayout.NDHWC, DataType.FLOAT32,
        ⟨[2, 3, 4, 5], data_type.f32, format_tag.abcd⟩⟩
      DataLayout.NDHWC DataLayout.ONEDNN (by decide) (by decide)).2.2.1,
    (MatchShapeToLayout_permutes
      ⟨[2, 3, 4, 5], DataLayout.NDHWC, DataType.FLOAT32,
        ⟨[2, 3, 4, 5], data_type.f32, format_tag.abcd⟩⟩
      DataLayout.NDHWC DataLayout.ONEDNN (by decide) (by decide)).2.2.2.1⟩

/-- C20 as stated fails: from the shape `[2, 3, 4294967297]` the rotation to NDHWC
gives `[2, 1, 3]`: the first dimension and the rank stay, the sizes do not (the
element count goes from 25769803782 to 6). -/
theorem MatchShapeToLayout_changes_sizes :
    (MatchShapeToLayout
        ⟨[2, 3, 4294967297], DataLayout.ONEDNN, DataType.FLOAT32,
          ⟨[2, 3, 4294967297], data_type.f32, format_tag.abc⟩⟩
        DataLayout.ONEDNN DataLayout.NDHWC).dims = [2, 1, 3]
      ∧ (MatchShapeToLayout
        ⟨[2, 3, 4294967297], DataLayout.ONEDNN, DataType.FLOAT32,
          ⟨[2, 3, 4294967297], data_type.f32, format_tag.abc⟩⟩
        DataLayout.ONEDNN DataLayout.NDHWC).numel = 6
      ∧ DenseTensor.numel
        ⟨[2, 3, 4294967297], DataLayout.ONEDNN, DataType.FLOAT32,
          ⟨[2, 3, 4294967297], data_type.f32, format_tag.abc⟩⟩ = 25769803782
      ∧ ¬ (MatchShapeToLayout
        ⟨[2, 3, 4294967297], DataLayout.ONEDNN, DataType.FLOAT32,
          ⟨[2, 3, 4294967297], data_type.f32, format_tag.abc⟩⟩
        DataLayout.ONEDNN DataLayout.NDHWC).dims.Perm [2, 3, 4294967297] := by
  refine ⟨by decide, by decide, by decide, by decide⟩

/-! ### Narrowing of the paddings -/

/-- C18, as amended: `ToOneDNNPadding` converts every entry to the C++ type `int`. For
every 6- or 4-element list of 64-bit integers each entry of the nested result is the
input entry at the corresponding position reduced modulo `2^32` into
`[-2^31, 2^31)`; it is the input entry itself whenever that lies in this range. -/
theorem ToOneDNNPadding_narrows (p0 p1 p2 p3 p4 p5 : Int) :
    ToOneDNNPadding [p0, p1, p2, p3, p4, p5]
        = some [[static_cast_int p0, static_cast_int p2, static_cast_int p4],
                [static_cast_int p1, static_cast_int p3, static_cast_int p5]]
      ∧ ToOneDNNPadding [p0, p1, p2, p3]
        = some [[static_cast_int p0, static_cast_int p2],
                [static_cast_int p1, static_cast_int p3]]
      ∧ (∀ p : Int, -2147483648 ≤ static_cast_int p ∧ static_cast_int p < 2147483648
          ∧ (static_cast_int p - p) % 4294967296 = 0)
      ∧ (∀ p : Int, -2147483648 ≤ p ∧ p < 2147483648 → static_cast_int p = p) := by
  refine ⟨by simp [ToOneDNNPadding], by simp [ToOneDNNPadding], ?_, ?_⟩
  · intro p
    unfold static_cast_int
    omega
  · intro p hp
    exact static_cast_int_of_fits p hp

/-- C18 as stated fails: the entry `2147483648` (larger than `2^31 - 1`) of the list
`[2147483648, 0, -1, 0]` comes out as `-2147483648`; the negative entry `-1` is kept. -/
theorem ToOneDNNPadding_large_entry :
    ToOneDNNPadding [2147483648, 0, -1, 0] = some [[-2147483648, -1], [0, 0]]
      ∧ ToOneDNNPadding [2147483648, 0, -1, 0] ≠ some [[2147483648, -1], [0, 0]] := by
  refine ⟨by decide, by decide⟩

/-! ### Idempotence of the format selection -/

/-- C21: `OneDNNFormatForSize` is idempotent in its format argument: for every rank
and every format tag, applying it to its own result at the same rank gives that
result again. -/
theorem OneDNNFormatForSize_idempotent (dims_size : Nat) (data_format : format_tag) :
    OneDNNFormatForSize dims_size (OneDNNFormatForSize dims_size data_format)
      = OneDNNFormatForSize dims_size data_format := by
  by_cases h1 : dims_size = 1
  · subst h1; rfl
  by_cases h2 : dims_size = 2
  · subst h2; rfl
  by_cases h3 : dims_size = 3
  · subst h3
    cases data_format <;> simp [OneDNNFormatForSize, format_tag.nchw, format_tag.nhwc,
      format_tag.ncw, format_tag.nwc]
  by_cases h4 : dims_size = 4
  · subst h4
    cases data_format <;> simp [OneDNNFormatForSize, format_tag.goihw, format_tag.oihw]
  by_cases h5 : dims_size = 5
  · subst h5
    cases data_format <;> simp [OneDNNFormatForSize, format_tag.goidhw, format_tag.oidhw,
      format_tag.nchw, format_tag.nhwc, format_tag.ncdhw, format_tag.ndhwc]
  by_cases h6 : dims_size = 6
  · subst h6
    cases data_format <;> simp [OneDNNFormatForSize, format_tag.nchw]
  · unfold OneDNNFormatForSize
    simp only [if_neg h1, if_neg h2, if_neg h3, if_neg h4, if_neg h5, if_neg h6]

end phi
